import Mathlib

/-!
Verification of the continuous-beam analysis and reinforced-concrete design
pipeline (structural solver, ULS design, SLS checks, bar selection,
section-height optimizer).

Shallow embedding conventions:
* Python floats are modelled as real numbers (`ℝ`); float literals such as
  `0.272` or `1e-8` become the exact rationals they denote in the source text.
* Python exceptions that the program raises and catches (`np.linalg.LinAlgError`,
  validation `ValueError`s, attribute errors caught by the optimizer) are
  modelled with `Except String`.
* In-place mutation of the `Beam` aggregate by each pipeline stage is modelled
  by explicit state passing: each engine maps a `Beam` to the updated `Beam`.
* The `design_results` dict of a span is written by exactly two methods, one
  storing the four flexural keys, one storing the three shear keys; it is
  modelled by a pair of optional records, `none` meaning the keys are absent.
  `dict.get(key, 0.0)` accesses become total accessors returning `0` on `none`.
* Node objects are shared by reference between adjacent spans in the source;
  spans here store the node's index into `Beam.nodes`, so that updating the
  node in the arena is visible through both adjacent spans.
-/

noncomputable section

/-- Load kinds of `entities.LoadType`. -/
inductive LoadType
  | DISTRIBUTED
  | POINT
  | MOMENT
  | TORSION
deriving DecidableEq, BEq

/-- Material kinds of `entities.MaterialType`. -/
inductive MaterialType
  | CONCRETE
  | STEEL
deriving DecidableEq, BEq

/-- Support kinds of `entities.SupportType`. -/
inductive SupportType
  | PINNED
  | FIXED
  | FREE
deriving DecidableEq, BEq

/-- The `entities.Material` dataclass (strengths in MPa). -/
structure Material where
  name : String
  mtype : MaterialType := MaterialType.CONCRETE
  fck : ℝ := 25
  fyk : ℝ := 500
  Ecs : ℝ := 23800

instance : Inhabited Material := ⟨{ name := "" }⟩

/-- The method `Material.get_fcd`: design compressive strength in kN/cm². -/
def Material.get_fcd (m : Material) : ℝ := m.fck / 1.4 / 10

/-- The `entities.CrossSection` dataclass (dimensions in cm). The source field
`section` is a Lean keyword, so the span field holding it is named `sec`. -/
structure CrossSection where
  bw : ℝ
  h : ℝ
  bf : ℝ := 0
  hf : ℝ := 0

instance : Inhabited CrossSection := ⟨{ bw := 0, h := 0 }⟩

/-- Property `CrossSection.inertia`: gross second moment of area bw·h³/12 (cm⁴). -/
def CrossSection.inertia (s : CrossSection) : ℝ := s.bw * s.h ^ 3 / 12

/-- Property `CrossSection.area` (cm²). -/
def CrossSection.area (s : CrossSection) : ℝ :=
  s.bw * s.h + (if s.bw < s.bf then (s.bf - s.bw) * s.hf else 0)

/-- The `entities.Load` dataclass. -/
structure Load where
  load_type : LoadType
  value : ℝ
  position_start : ℝ
  position_end : ℝ
  source : String := "Manual"

/-- The `entities.Node` dataclass. The source stores
`support_conditions = [Restrição Y, Restrição Rotação Z]` as a two-element
list of booleans; the two entries are the fields `ry` and `rz` here. -/
structure Node where
  id : ℕ
  x : ℝ
  y : ℝ := 0
  ry : Bool := false
  rz : Bool := false

instance : Inhabited Node := ⟨{ id := 0, x := 0 }⟩

/-- The four keys stored by `ELUDesignEngine._design_flexure` into
`span.design_results`. -/
structure FlexResults where
  As_sup_esq : ℝ
  As_sup_dir : ℝ
  As_inf_vao : ℝ
  Md_max : ℝ

/-- The three keys stored by `ELUDesignEngine._design_shear` into
`span.design_results`. -/
structure ShearResults where
  V_sd : ℝ
  Asw_s_req : ℝ
  Status_Biela : String

/-- Model of the `span.design_results` dict: the flexural keys and the shear
keys are each either all present or all absent. A fresh span has the empty
dict, i.e. both components `none`. -/
structure DesignResults where
  flex : Option FlexResults := none
  shear : Option ShearResults := none

/-- Access `design_results.get("As_inf_vao", 0.0)`. -/
def DesignResults.getAsInfVao (r : DesignResults) : ℝ :=
  match r.flex with
  | some f => f.As_inf_vao
  | none => 0

/-- Access `design_results.get("As_sup_esq", 0.0)`. -/
def DesignResults.getAsSupEsq (r : DesignResults) : ℝ :=
  match r.flex with
  | some f => f.As_sup_esq
  | none => 0

/-- Access `design_results.get("As_sup_dir", 0.0)`. -/
def DesignResults.getAsSupDir (r : DesignResults) : ℝ :=
  match r.flex with
  | some f => f.As_sup_dir
  | none => 0

/-- Access `design_results.get("Md_max", 0.0)`. -/
def DesignResults.getMdMax (r : DesignResults) : ℝ :=
  match r.flex with
  | some f => f.Md_max
  | none => 0

/-- Access `design_results.get("Asw_s_req", 0.0)`. -/
def DesignResults.getAswSReq (r : DesignResults) : ℝ :=
  match r.shear with
  | some s => s.Asw_s_req
  | none => 0

/-- The `els_checker.ServiceabilityResult` DTO. -/
structure ServiceabilityResult where
  wk_calc : ℝ
  wk_limit : ℝ
  deflection_inst : ℝ
  deflection_total : ℝ
  deflection_limit : ℝ
  status_crack : String
  status_deflection : String

/-- The `entities.BeamSpan` dataclass. `start_node`/`end_node` are indices
into the owning beam's node arena (`Optional[Node] = None` in the source). -/
structure BeamSpan where
  id : ℕ
  length : ℝ
  sec : CrossSection
  material : Material
  loads : List Load := []
  start_node : Option ℕ := none
  end_node : Option ℕ := none
  moment_left : ℝ := 0
  moment_right : ℝ := 0
  shear_left : ℝ := 0
  shear_right : ℝ := 0
  design_results : DesignResults := {}
  els_results : Option ServiceabilityResult := none

instance : Inhabited BeamSpan := ⟨{ id := 0, length := 0, sec := default, material := default }⟩

/-- The `entities.Beam` dataclass. -/
structure Beam where
  id : String
  spans : List BeamSpan := []
  nodes : List Node := []
  direction_vector : ℝ × ℝ := (1, 0)

/-- The helper `get_conditions` inside `Beam.add_span`: maps a support type to
the pair (Restrição Y, Restrição Rotação Z). -/
def getConditions (stype : SupportType) : Bool × Bool :=
  match stype with
  | SupportType.FIXED => (true, true)
  | SupportType.PINNED => (true, false)
  | SupportType.FREE => (false, false)

/-- Overwrite the last node's support conditions with `[True, True]`
(the `start_support == FIXED` branch of `Beam.add_span`, which mutates the
shared existing node in place). -/
def setLastFixed (l : List Node) : List Node :=
  match l.getLast? with
  | none => l
  | some nd => l.set (l.length - 1) { nd with ry := true, rz := true }

/-- The node-arena state after the start-node handling of `Beam.add_span`:
either the freshly created first node, or the existing arena with the shared
last node possibly upgraded to full fixity. -/
def addSpanNodes1 (b : Beam) (start_coord : ℝ × ℝ) (start_support : SupportType) : List Node :=
  if b.nodes.isEmpty then
    let conds := getConditions start_support
    [{ id := 0, x := start_coord.1, y := start_coord.2, ry := conds.1, rz := conds.2 }]
  else
    if start_support = SupportType.FIXED then setLastFixed b.nodes else b.nodes

/-- The end node appended by `Beam.add_span`; its id is the arena size before
the append. -/
def addSpanEndNode (nodes1 : List Node) (length : ℝ) (direction : ℝ × ℝ)
    (end_support : SupportType) : Node :=
  let startNode := nodes1.getLastD default
  let conds_end := getConditions end_support
  { id := nodes1.length
    x := startNode.x + length * direction.1
    y := startNode.y + length * direction.2
    ry := conds_end.1
    rz := conds_end.2 }

/-- The method `Beam.add_span`. -/
def Beam.add_span (b : Beam) (length : ℝ) (sec : CrossSection) (mat : Material)
    (start_coord : ℝ × ℝ := (0, 0)) (direction : ℝ × ℝ := (1, 0))
    (start_support : SupportType := SupportType.PINNED)
    (end_support : SupportType := SupportType.PINNED) : Beam :=
  let span_id := b.spans.length + 1
  let nodes1 := addSpanNodes1 b start_coord start_support
  let start_idx := nodes1.length - 1
  let end_node_id := nodes1.length
  let endNode := addSpanEndNode nodes1 length direction end_support
  let new_span : BeamSpan :=
    { id := span_id, length := length, sec := sec, material := mat,
      start_node := some start_idx, end_node := some end_node_id }
  { b with direction_vector := direction,
           nodes := nodes1 ++ [endNode],
           spans := b.spans ++ [new_span] }

/-- Arguments of one `Beam.add_span` call (for iterating call sequences). -/
structure AddSpanArgs where
  length : ℝ
  sec : CrossSection
  mat : Material
  start_coord : ℝ × ℝ := (0, 0)
  direction : ℝ × ℝ := (1, 0)
  start_support : SupportType := SupportType.PINNED
  end_support : SupportType := SupportType.PINNED

/-- Apply one recorded `add_span` call. -/
def applyAddSpan (b : Beam) (a : AddSpanArgs) : Beam :=
  b.add_span a.length a.sec a.mat a.start_coord a.direction a.start_support a.end_support

namespace MatrixSolver

/-- Entry (a,b) of the classic 4×4 Euler-Bernoulli pattern
`[[12,6L,-12,6L],[6L,4L²,-6L,2L²],[-12,-6L,12,-6L],[6L,2L²,-6L,4L²]]`
(out-of-range indices give 0). -/
def kPattern (L : ℝ) (a b : ℕ) : ℝ :=
  if a = 0 then
    if b = 0 then 12 else if b = 1 then 6 * L else if b = 2 then -12
    else if b = 3 then 6 * L else 0
  else if a = 1 then
    if b = 0 then 6 * L else if b = 1 then 4 * L ^ 2 else if b = 2 then -6 * L
    else if b = 3 then 2 * L ^ 2 else 0
  else if a = 2 then
    if b = 0 then -12 else if b = 1 then -6 * L else if b = 2 then 12
    else if b = 3 then -6 * L else 0
  else if a = 3 then
    if b = 0 then 6 * L else if b = 1 then 2 * L ^ 2 else if b = 2 then -6 * L
    else if b = 3 then 4 * L ^ 2 else 0
  else 0

/-- Elastic modulus unit conversion `E = span.material.Ecs * 1000` (MPa → kN/m²). -/
def spanE (sp : BeamSpan) : ℝ := sp.material.Ecs * 1000

/-- Inertia unit conversion `I = span.section.inertia * 1e-8` (cm⁴ → m⁴). -/
def spanI (sp : BeamSpan) : ℝ := sp.sec.inertia * (1 / 100000000)

/-- The scalar factor `E * I / L**3` of the local stiffness matrix. -/
def spanEIL3 (sp : BeamSpan) : ℝ := spanE sp * spanI sp / sp.length ^ 3

/-- Entry (a,b) of the local 4×4 stiffness matrix of a span. -/
def kLocal (sp : BeamSpan) (a b : ℕ) : ℝ := spanEIL3 sp * kPattern sp.length a b

/-- Contribution of element number `p` (connecting nodes p and p+1, global DOF
indices `[2p, 2p+1, 2p+2, 2p+3]`) to entry (i,j) of the global stiffness matrix. -/
def contrib (p : ℕ) (sp : BeamSpan) (i j : ℕ) : ℝ :=
  if 2 * p ≤ i ∧ i < 2 * p + 4 ∧ 2 * p ≤ j ∧ j < 2 * p + 4 then
    kLocal sp (i - 2 * p) (j - 2 * p)
  else 0

/-- The assembled global stiffness matrix `K_global` of
`MatrixSolver._assemble_stiffness_matrix` (spans reference nodes in sequential
creation order: element p connects node p to node p+1). -/
def K_global (spans : List BeamSpan) (i j : ℕ) : ℝ :=
  ∑ p ∈ Finset.range spans.length, contrib p (spans.getD p default) i j

/-- Fixed-end reactions of a distributed load `q` on a span of length `L`:
`[qL/2, qL²/12, qL/2, -qL²/12]`. -/
def repLoad (L q : ℝ) (a : ℕ) : ℝ :=
  match a with
  | 0 => q * L / 2
  | 1 => q * L ^ 2 / 12
  | 2 => q * L / 2
  | 3 => -(q * L ^ 2) / 12
  | _ => 0

/-- Local fixed-end force vector of a span: distributed loads only, summed
over the span's load list (`MatrixSolver._assemble_load_vector` inner loop). -/
def f_local (sp : BeamSpan) (a : ℕ) : ℝ :=
  ((sp.loads.filter fun l => l.load_type == LoadType.DISTRIBUTED).map
    fun l => repLoad sp.length l.value a).sum

/-- Contribution of element `p` to the global load vector (the source subtracts
the fixed-end reactions: `F_global[indices[i]] -= f_local[i]`). -/
def fContrib (p : ℕ) (sp : BeamSpan) (i : ℕ) : ℝ :=
  if 2 * p ≤ i ∧ i < 2 * p + 4 then -f_local sp (i - 2 * p) else 0

/-- The assembled global load vector `F_global`. -/
def F_global (spans : List BeamSpan) (i : ℕ) : ℝ :=
  ∑ p ∈ Finset.range spans.length, fContrib p (spans.getD p default) i

/-- The free-DOF scan of `MatrixSolver._solve_system`, iterating nodes with
index `i`: DOF `2i` is free when `support_conditions[0]` is false, DOF `2i+1`
when `support_conditions[1]` is false. -/
def freeDofsAux : List Node → ℕ → List ℕ
  | [], _ => []
  | nd :: rest, i =>
      (if nd.ry then [] else [2 * i]) ++ (if nd.rz then [] else [2 * i + 1]) ++
        freeDofsAux rest (i + 1)

/-- The ordered list of free DOF indices of a beam. -/
def freeDofs (nodes : List Node) : List ℕ := freeDofsAux nodes 0

/-- The reduced stiffness matrix `K_global[np.ix_(free_dofs, free_dofs)]`. -/
def K_reduced (b : Beam) : Matrix (Fin (freeDofs b.nodes).length) (Fin (freeDofs b.nodes).length) ℝ :=
  Matrix.of fun i j => K_global b.spans ((freeDofs b.nodes).get i) ((freeDofs b.nodes).get j)

/-- The reduced load vector `F_global[free_dofs]`. -/
def F_reduced (b : Beam) : Fin (freeDofs b.nodes).length → ℝ :=
  fun i => F_global b.spans ((freeDofs b.nodes).get i)

/-- Scatter the reduced solution back into the full displacement vector
(`np.put(self.displacements, free_dofs, u_reduced)`, other entries zero). -/
def putDisp (free : List ℕ) (u : Fin free.length → ℝ) : ℕ → ℝ :=
  fun d => if h : d ∈ free then u ⟨free.indexOf d, List.indexOf_lt_length.mpr h⟩ else 0

/-- The message of the exception raised on a singular reduced matrix. -/
def singularMsg : String := "Matriz Singular. Verifique se a estrutura é estável (hipostática?)."

/-- The method `MatrixSolver._solve_system`: `np.linalg.solve` succeeds with the
unique solution exactly when the reduced matrix is nonsingular, and the
`LinAlgError` is re-raised as a "Matriz Singular" exception otherwise. -/
def solve_system (b : Beam) : Except String (ℕ → ℝ) :=
  if (K_reduced b).det = 0 then Except.error singularMsg
  else Except.ok (putDisp (freeDofs b.nodes) (Matrix.mulVec (K_reduced b)⁻¹ (F_reduced b)))

/-- Row `a` of `k_local @ u_elem` for element `p` of the displacement vector. -/
def f_disp (sp : BeamSpan) (p : ℕ) (disp : ℕ → ℝ) (a : ℕ) : ℝ :=
  ∑ bb ∈ Finset.range 4, kLocal sp a bb * disp (2 * p + bb)

/-- Row `a` of `f_final = f_disp + f_fixed` for element `p`. -/
def f_final (sp : BeamSpan) (p : ℕ) (disp : ℕ → ℝ) (a : ℕ) : ℝ :=
  f_disp sp p disp a + f_local sp a

/-- Assign a span's end forces from `f_final`, with the strength-of-materials
sign flip on the right end (`MatrixSolver._compute_internal_forces`). -/
def setForces (p : ℕ) (sp : BeamSpan) (disp : ℕ → ℝ) : BeamSpan :=
  { sp with
    shear_left := f_final sp p disp 0,
    moment_left := f_final sp p disp 1,
    shear_right := -f_final sp p disp 2,
    moment_right := -f_final sp p disp 3 }

/-- The method `MatrixSolver._compute_internal_forces` over all spans. -/
def compute_internal_forces (spans : List BeamSpan) (disp : ℕ → ℝ) : List BeamSpan :=
  spans.mapIdx fun p sp => setForces p sp disp

/-- The whole solver run: the constructor's no-nodes validation, `solve`'s
no-spans validation, assembly, system solution and post-processing. An
`Except.error` models an exception propagating to the caller (in particular
no internal forces are assigned to any span in that case). -/
def solve (b : Beam) : Except String Beam :=
  if b.nodes.isEmpty then
    Except.error ("A viga " ++ b.id ++ " não possui nós definidos. Verifique a importação.")
  else if b.spans.isEmpty then
    Except.error "A viga não possui vãos definidos."
  else
    match solve_system b with
    | Except.error e => Except.error e
    | Except.ok disp => Except.ok { b with spans := compute_internal_forces b.spans disp }

end MatrixSolver

namespace ELUDesignEngine

/-- Default partial safety factor for concrete (`gamma_c=1.4`). -/
def gamma_c : ℝ := 1.4

/-- Default partial safety factor for steel (`gamma_s=1.15`). -/
def gamma_s : ℝ := 1.15

/-- Default load amplification factor (`gamma_f=1.4`). -/
def gamma_f : ℝ := 1.4

/-- The method `ELUDesignEngine._calc_reinforcement_area` (rectangular section,
domains 2/3): returns the required steel area in cm² for a design moment in
kNm. The source's `try/except` around the square root can never fire because
the `val_sqrt < 0` early return already guards the radicand. -/
def calc_reinforcement_area (Md_kNm b_cm d_cm fcd_kNcm2 fyd_kNcm2 : ℝ) : ℝ :=
  if Md_kNm ≤ 0.01 then 0
  else
    let Md_kNcm := Md_kNm * 100
    let kmd := Md_kNcm / (b_cm * d_cm ^ 2 * fcd_kNcm2)
    if 0.251 < kmd then Md_kNcm / (0.9 * d_cm * fyd_kNcm2) * 1.5
    else
      let val_sqrt := 1 - 4 * 0.272 * kmd / 0.68 ^ 2
      if val_sqrt < 0 then 999
      else
        let beta_x := (0.68 - Real.sqrt (0.68 ^ 2 - 4 * 0.272 * kmd)) / (2 * 0.272)
        let z := d_cm * (1 - 0.4 * beta_x)
        Md_kNcm / (z * fyd_kNcm2)

/-- Total distributed load on a span,
`sum(l.value for l in span.loads if l.load_type.name == 'DISTRIBUTED')`. -/
def q_dist_total (sp : BeamSpan) : ℝ :=
  ((sp.loads.filter fun l => l.load_type == LoadType.DISTRIBUTED).map Load.value).sum

/-- Midspan positive-moment estimate before amplification:
`max(0, q·L²/8 - (|M_esq| + |M_dir|)/2)`. -/
def pos_moment_estimate (sp : BeamSpan) : ℝ :=
  max 0 (q_dist_total sp * sp.length ^ 2 / 8 - (|sp.moment_left| + |sp.moment_right|) / 2)

/-- The method `ELUDesignEngine._design_flexure`: computes the three critical
steel areas, applies the minimum-reinforcement floor `0.0015·b·h` (supports
exempt when their design moment is at most 0.1), and overwrites the span's
`design_results` dict with the four flexural keys. -/
def design_flexure (sp : BeamSpan) : BeamSpan :=
  let fcd := sp.material.get_fcd
  let fyd := sp.material.fyk / gamma_s / 10
  let b := sp.sec.bw
  let h := sp.sec.h
  let d := h - 4
  let Md_neg_esq := |sp.moment_left| * gamma_f
  let Md_neg_dir := |sp.moment_right| * gamma_f
  let Md_pos_vao := pos_moment_estimate sp * gamma_f
  let as_sup_esq := calc_reinforcement_area Md_neg_esq b d fcd fyd
  let as_sup_dir := calc_reinforcement_area Md_neg_dir b d fcd fyd
  let as_inf_vao := calc_reinforcement_area Md_pos_vao b d fcd fyd
  let as_min := 0.0015 * b * h
  { sp with design_results :=
      { flex := some
          { As_sup_esq := if 0.1 < Md_neg_esq then max as_sup_esq as_min else 0
            As_sup_dir := if 0.1 < Md_neg_dir then max as_sup_dir as_min else 0
            As_inf_vao := max as_inf_vao as_min
            Md_max := max (max Md_neg_esq Md_neg_dir) Md_pos_vao }
        shear := none } }

/-- The method `ELUDesignEngine._design_shear` (Modelo I): stores the shear
demand, required stirrup area per length, and the strut-crushing status. -/
def design_shear (sp : BeamSpan) : BeamSpan :=
  let Vd_max := max |sp.shear_left| |sp.shear_right| * gamma_f
  let fcd := sp.material.get_fcd
  let fctd := 0.21 * sp.material.fck ^ ((2 : ℝ) / 3) / gamma_c / 10
  let b := sp.sec.bw
  let d := sp.sec.h - 4
  let alpha_v2 := 1 - sp.material.fck / 250
  let V_rd2 := 0.27 * alpha_v2 * fcd * b * d
  let status_biela := if V_rd2 < Vd_max then "FALHA (Esmagamento Biela)" else "OK"
  let V_c := 0.6 * fctd * b * d
  let V_sw := max 0 (Vd_max - V_c)
  let fyd_transv : ℝ := 43.5
  let Asw_s_calc := V_sw / (0.9 * d * fyd_transv)
  let fctm := 0.3 * sp.material.fck ^ ((2 : ℝ) / 3) / 10
  let Asw_s_min := 0.2 * fctm / 50 * b
  { sp with design_results :=
      { sp.design_results with shear := some (
          { V_sd := Vd_max
            Asw_s_req := max Asw_s_calc Asw_s_min
            Status_Biela := status_biela } : ShearResults) } }

/-- The method `ELUDesignEngine.run_design`: flexural then shear design on
every span of the beam. -/
def run_design (b : Beam) : Beam :=
  { b with spans := b.spans.map fun sp => design_shear (design_flexure sp) }

end ELUDesignEngine

/-- Round a real to `n=2` decimal places, modelling Python's `round(x, 2)`
(idealized to round-half-away from banker's rounding; the two agree except on
exact midpoints). -/
def round2 (x : ℝ) : ℝ := ((round (x * 100) : ℤ) : ℝ) / 100

/-- Round to 3 decimal places (`round(x, 3)`). -/
def round3 (x : ℝ) : ℝ := ((round (x * 1000) : ℤ) : ℝ) / 1000

/-- Round to 1 decimal place (`round(x, 1)`). -/
def round1 (x : ℝ) : ℝ := ((round (x * 10) : ℤ) : ℝ) / 10

namespace ELSCheckerEngine

/-- The crack-limit table `{1: 0.4, 2: 0.3, 3: 0.2, 4: 0.2}` accessed with
`self.crack_limits[self.caa]` (the out-of-table value is unreachable: the
engine is always instantiated with the default `caa=2`). -/
def crackLimitIdx (caa : ℕ) : ℝ :=
  if caa = 1 then 0.4 else if caa = 2 then 0.3 else if caa = 3 then 0.2
  else if caa = 4 then 0.2 else 0

/-- The same table accessed with `self.crack_limits.get(self.caa, 0.3)`. -/
def crackLimitGetD (caa : ℕ) : ℝ :=
  if caa = 1 then 0.4 else if caa = 2 then 0.3 else if caa = 3 then 0.2
  else if caa = 4 then 0.2 else 0.3

/-- Coefficients `A_eq = b/2`, `B_eq = alpha_e·As`, `C_eq = -alpha_e·As·d` of
the Stage II neutral-axis quadratic, with `alpha_e = 10`; this is its
discriminant `delta = B_eq² - 4·A_eq·C_eq`. -/
def crack_delta (b As d : ℝ) : ℝ := (10 * As) ^ 2 - 4 * (b / 2) * (-(10 * As * d))

/-- Stage II neutral-axis depth `x_II = (-B_eq + sqrt(delta)) / (2·A_eq)`. -/
def crack_xII (b As d : ℝ) : ℝ :=
  (-(10 * As) + Real.sqrt (crack_delta b As d)) / (2 * (b / 2))

/-- Stage II cracked inertia `I_II = b·x³/3 + alpha_e·As·(d-x)²`. -/
def crack_III (b As d : ℝ) : ℝ :=
  b * crack_xII b As d ^ 3 / 3 + 10 * As * (d - crack_xII b As d) ^ 2

/-- Steel stress `sigma_s = alpha_e · (M_serv · (d - x_II) / I_II)` (kN/cm²). -/
def crack_sigma (b As d M_serv : ℝ) : ℝ :=
  10 * (M_serv * (d - crack_xII b As d) / crack_III b As d)

/-- Bar-diameter estimate stepped by the required area (cm). -/
def crack_phi (As : ℝ) : ℝ := if 10 < As then 1.6 else if 5 < As then 1.25 else 1

/-- Mean tensile strength `fctm = 0.3·fck^(2/3)/10` (kN/cm²). -/
def fctm_of (fck : ℝ) : ℝ := 0.3 * fck ^ ((2 : ℝ) / 3) / 10

/-- Crack width in mm before rounding:
`wk = (phi/(12.5·eta1)) · (sigma_s/Es) · max(0.6·sigma_s/fctm, 3·sigma_s/fctm)`,
converted from cm (`Es = 21000`, `eta1 = 2.25`). -/
def crack_wk_mm (b As d M_serv fck : ℝ) : ℝ :=
  let sigma_s := crack_sigma b As d M_serv
  let term_1 := crack_phi As / (12.5 * 2.25)
  let term_2 := sigma_s / 21000
  let term_3 := max (0.6 * sigma_s / fctm_of fck) (3 * sigma_s / fctm_of fck)
  term_1 * term_2 * term_3 * 10

/-- Result dict of `_check_cracking`. -/
structure CrackRes where
  wk : ℝ
  limit : ℝ
  status : String

/-- The method `ELSCheckerEngine._check_cracking`. -/
def check_cracking (caa : ℕ) (sp : BeamSpan) : CrackRes :=
  let h := sp.sec.h
  let b := sp.sec.bw
  let d := h - 4
  let As_adopt := sp.design_results.getAsInfVao
  if As_adopt ≤ 0.001 then { wk := 0, limit := crackLimitIdx caa, status := "OK" }
  else
    let Md_max := sp.design_results.getMdMax
    let M_serv := Md_max / 1.4 * 100
    let wk_mm := crack_wk_mm b As_adopt d M_serv sp.material.fck
    { wk := round3 wk_mm
      limit := crackLimitGetD caa
      status := if wk_mm ≤ crackLimitGetD caa then "OK" else "FALHA" }

/-- Result dict of `_check_deflection`. -/
structure DeflRes where
  inst : ℝ
  total : ℝ
  limit : ℝ
  status : String

/-- The method `ELSCheckerEngine._check_deflection`. -/
def check_deflection (sp : BeamSpan) : DeflRes :=
  let L_cm := sp.length * 100
  let limit := L_cm * 10 / 250
  let q_elu := ((sp.loads.filter fun l => l.load_type == LoadType.DISTRIBUTED).map Load.value).sum
  let q_serv := q_elu / 1.4
  let q_line := q_serv / 100
  let E_cs := sp.material.Ecs / 10
  let I_c := sp.sec.inertia
  let f_imediata := 5 * q_line * L_cm ^ 4 / (384 * E_cs * I_c)
  let f_imediata_fissurada := f_imediata * 1.5
  let delta_csi : ℝ := 2
  let alpha_f := delta_csi
  let f_total := f_imediata_fissurada * (1 + alpha_f)
  let f_inst_mm := f_imediata_fissurada * 10
  let f_total_mm := f_total * 10
  { inst := round2 f_inst_mm
    total := round2 f_total_mm
    limit := limit
    status := if f_total_mm ≤ limit then "OK" else "FALHA" }

/-- The guard `hasattr(span, "design_results")` in `run_checks`. `BeamSpan` is
a dataclass whose `design_results` field has `default_factory=dict`, so every
instance carries the attribute (possibly as an empty dict) and the guard is
identically true. -/
def has_design_results_attr (_sp : BeamSpan) : Bool := true

/-- The method `ELSCheckerEngine.run_checks`: for each span, the (dead)
missing-attribute guard, then cracking and deflection checks, storing a
`ServiceabilityResult` on the span. -/
def run_checks (caa : ℕ) (b : Beam) : Beam :=
  { b with spans := b.spans.map fun sp =>
      if has_design_results_attr sp = false then sp
      else
        let rc := check_cracking caa sp
        let rd := check_deflection sp
        { sp with els_results := some (
            { wk_calc := rc.wk
              wk_limit := rc.limit
              deflection_inst := rd.inst
              deflection_total := rd.total
              deflection_limit := rd.limit
              status_crack := rc.status
              status_deflection := rd.status } : ServiceabilityResult) } }

end ELSCheckerEngine

namespace BarSelectorEngine

/-- The `bar_selector.BarOption` dataclass. -/
structure BarOption where
  diameter_mm : ℝ
  count : ℕ
  area_provided_cm2 : ℝ
  spacing_mm : ℝ := 0
  status : String := "OK"
  anchorage_length_cm : ℝ := 0

/-- The `bar_selector.StirrupOption` dataclass. -/
structure StirrupOption where
  diameter_mm : ℝ
  spacing_cm : ℝ
  legs : ℕ := 2
  status : String := "OK"

/-- The longitudinal bar-diameter catalogue (mm). -/
def longitudinal_bars : List ℝ := [8, 10, 12.5, 16, 20, 25]

/-- The transverse (stirrup) bar-diameter catalogue (mm). -/
def transversal_bars : List ℝ := [5, 6.3, 8, 10]

/-- The method `BarSelectorEngine._calc_anchorage` (returns cm). -/
def calc_anchorage (phi_mm : ℝ) (fck_mpa : ℝ := 25) (condition : String := "good") : ℝ :=
  let eta1 : ℝ := 2.25
  let eta2 : ℝ := if condition = "good" then 1 else 0.7
  let eta3 : ℝ := 1
  let fctd := 0.21 * fck_mpa ^ ((2 : ℝ) / 3) / 1.4
  let fbd := eta1 * eta2 * eta3 * fctd
  let fyd : ℝ := 500 / 1.15
  let lb := phi_mm / 4 * (fyd / fbd)
  let lb_min := max (max (0.3 * lb) (10 * phi_mm)) 100
  max lb lb_min / 10

/-- Cross-sectional area of one bar of diameter `phi` mm,
`math.pi * ((phi/10)/2)**2` (cm²). -/
def areaBar (phi : ℝ) : ℝ := Real.pi * (phi / 10 / 2) ^ 2

/-- Bar count for a diameter: `n = math.ceil(as_req / area_bar)` then
`if n < 2: n = 2`. -/
def nBars (as_req phi : ℝ) : ℕ := max 2 ⌈as_req / areaBar phi⌉₊

/-- Width needed by `n` bars of diameter `phi` with 20 mm clear spacing:
`(n * phi) + ((n - 1) * ah_min)`. -/
def spaceRequired (n : ℕ) (phi : ℝ) : ℝ := n * phi + (n - 1 : ℕ) * 20

/-- Usable width `bw_mm - 2*(cover_mm + estribo_est)` with `estribo_est = 5`. -/
def widthAvailable (bw_cm cover_mm : ℝ) : ℝ := bw_cm * 10 - 2 * (cover_mm + 5)

/-- Whether a catalogue diameter fits: its minimal admissible bar count
(at least 2, enough area) also satisfies the clear-spacing constraint. -/
def fits (as_req width_avail phi : ℝ) : Prop :=
  spaceRequired (nBars as_req phi) phi ≤ width_avail

instance (as_req width_avail phi : ℝ) : Decidable (fits as_req width_avail phi) := by
  unfold fits; infer_instance

/-- Excess area of a diameter's minimal arrangement: `n·area_bar - as_req`. -/
def excess (as_req phi : ℝ) : ℝ := nBars as_req phi * areaBar phi - as_req

/-- The `BarOption` built for a fitting diameter inside the selection loop. -/
def mkOpt (as_req phi fck : ℝ) (bond : String) : BarOption :=
  { diameter_mm := phi
    count := nBars as_req phi
    area_provided_cm2 := nBars as_req phi * areaBar phi
    spacing_mm := 0
    status := "OK"
    anchorage_length_cm := round1 (calc_anchorage phi fck bond) }

/-- One iteration of the `for phi in self.longitudinal_bars` loop of
`select_longitudinal`: if the diameter fits and its overdesign beats the
running minimum (`float('inf')` when no option is held yet), the held best
option and minimum are replaced. -/
def stepAcc (as_req width_avail fck : ℝ) (bond : String) (phi : ℝ) :
    Option (BarOption × ℝ) → Option (BarOption × ℝ)
  | none =>
      if fits as_req width_avail phi then some (mkOpt as_req phi fck bond, excess as_req phi)
      else none
  | some pr =>
      if fits as_req width_avail phi then
        if excess as_req phi < pr.2 then some (mkOpt as_req phi fck bond, excess as_req phi)
        else some pr
      else some pr

/-- The whole selection loop, folding `stepAcc` over the catalogue. -/
def selectBest (as_req width_avail fck : ℝ) (bond : String) :
    List ℝ → Option (BarOption × ℝ) → Option (BarOption × ℝ)
  | [], acc => acc
  | phi :: rest, acc =>
      selectBest as_req width_avail fck bond rest (stepAcc as_req width_avail fck bond phi acc)

/-- The method `BarSelectorEngine.select_longitudinal`. -/
def select_longitudinal (as_req bw_cm : ℝ) (cover_mm : ℝ := 25)
    (is_top : Bool := false) (fck_mpa : ℝ := 25) : BarOption :=
  if as_req ≤ 0.01 then
    { diameter_mm := 0, count := 0, area_provided_cm2 := 0, spacing_mm := 0,
      status := "Dispensado", anchorage_length_cm := 0 }
  else
    let bond_cond := if is_top then "bad" else "good"
    match selectBest as_req (widthAvailable bw_cm cover_mm) fck_mpa bond_cond
        longitudinal_bars none with
    | some pr => pr.1
    | none =>
        { diameter_mm := 0, count := 0, area_provided_cm2 := 0, spacing_mm := 0,
          status := "Erro: Não cabe (Camada Dupla nec.)", anchorage_length_cm := 0 }

/-- The method `BarSelectorEngine.select_skin_reinforcement`. -/
def select_skin_reinforcement (h_cm bw_cm : ℝ) : BarOption :=
  if h_cm < 60 then
    { diameter_mm := 0, count := 0, area_provided_cm2 := 0, spacing_mm := 0,
      status := "Não necessário (h < 60)", anchorage_length_cm := 0 }
  else
    let As_pele_face := 0.0010 * bw_cm * h_cm / 2
    let phi : ℝ := 8
    let n_face := max 2 ⌈As_pele_face / areaBar phi⌉₊
    { diameter_mm := phi
      count := n_face * 2
      area_provided_cm2 := n_face * 2 * areaBar phi
      spacing_mm := 0
      status := "barras/face"
      anchorage_length_cm := 0 }

/-- The `for phi in self.transversal_bars` loop of `select_stirrup`. -/
def selectStirrupLoop (asw h_cm : ℝ) : List ℝ → StirrupOption
  | [] => { diameter_mm := 0, spacing_cm := 0, legs := 2, status := "Erro: Espaçamento < 5cm" }
  | phi :: rest =>
      let area_total := 2 * areaBar phi
      let s_calc := area_total / asw
      let s_max := min (0.6 * (h_cm - 4)) 30
      let s_adopt : ℤ := ⌊min s_calc s_max⌋
      if 5 ≤ (s_adopt : ℝ) then
        { diameter_mm := phi, spacing_cm := (s_adopt : ℝ), legs := 2, status := "OK" }
      else selectStirrupLoop asw h_cm rest

/-- The method `BarSelectorEngine.select_stirrup` (`bw_cm` is unused in the
source as well). -/
def select_stirrup (asw_s_req bw_cm h_cm : ℝ) : StirrupOption :=
  let asw := if asw_s_req ≤ 0.0001 then 0.001 else asw_s_req
  selectStirrupLoop asw h_cm transversal_bars

end BarSelectorEngine

namespace OptimizerEngine

/-- Unit cost of concrete, R$/m³. -/
def cost_concrete_m3 : ℝ := 450

/-- Unit cost of steel, R$/kg. -/
def cost_steel_kg : ℝ := 12

/-- Unit cost of formwork, R$/m². -/
def cost_formwork_m2 : ℝ := 80

/-- One entry of the optimizer's `results` list. The OK branch stores extra
keys (`steel_kg`, `conc_m3`, `as_pos`) that the failure branches omit. -/
structure TrialEntry where
  h : ℕ
  status : String
  cost : ℝ
  steel_kg : Option ℝ := none
  conc_m3 : Option ℝ := none
  as_pos : Option ℝ := none

/-- The optimizer's return dict: either the `{"error": ...}` dict or the
report with original entry, best entry, full trial list and recommendation. -/
inductive OptResult
  | infeasible (msg : String)
  | report (original : Option TrialEntry) (best : TrialEntry)
      (all_trials : List TrialEntry) (recommendation : String)

/-- Candidate heights `[h for h in range(30, 85, 5)]`. -/
def test_heights : List ℕ := List.range' 30 11 5

/-- Self-weight refresh inside a trial: loads whose `source` is
"Peso Próprio" get `value = (bw/100) * (h/100) * 25` from the span's (already
updated) section. -/
def updateSelfWeight (sp : BeamSpan) : BeamSpan :=
  { sp with loads := sp.loads.map fun l =>
      if l.source = "Peso Próprio" then
        { l with value := sp.sec.bw / 100 * (sp.sec.h / 100) * 25 }
      else l }

/-- A trial's working copy: `copy.deepcopy(original_beam)` gives a fully
independent copy (value semantics), after which every span's height is
overwritten with the candidate and self-weight loads are refreshed. -/
def trialBeam (b : Beam) (h_test : ℕ) : Beam :=
  { b with spans := b.spans.map fun sp =>
      updateSelfWeight { sp with sec := { sp.sec with h := (h_test : ℝ) } } }

/-- Accumulated quantities over a trial beam's spans. -/
structure Totals where
  steel : ℝ
  conc : ℝ
  form : ℝ

/-- The per-span quantity loop of a trial (step D). Mirrors the source order:
the serviceability statuses are consulted first (`Except.ok none` models the
`valid_design = False; break` path), and a missing `els_results` record would
be an `AttributeError` swallowed by the trial's `except` clause
(`Except.error`). `bw` and `h_test` are the optimizer's loop-local variables. -/
def accumulate (bw : ℝ) (h_test : ℕ) : List BeamSpan → Totals → Except String (Option Totals)
  | [], acc => Except.ok (some acc)
  | sp :: rest, acc =>
      match sp.els_results with
      | none => Except.error "NoneType object has no attribute"
      | some er =>
        if er.status_crack ≠ "OK" ∨ er.status_deflection ≠ "OK" then Except.ok none
        else
          let res := sp.design_results
          let det_pos := BarSelectorEngine.select_longitudinal res.getAsInfVao sp.sec.bw
          let det_neg_esq := BarSelectorEngine.select_longitudinal res.getAsSupEsq sp.sec.bw 25 true
          let det_neg_dir := BarSelectorEngine.select_longitudinal res.getAsSupDir sp.sec.bw 25 true
          let det_shear := BarSelectorEngine.select_stirrup res.getAswSReq sp.sec.bw sp.sec.h
          let L := sp.length
          let steel_pos := if 0 < det_pos.count then det_pos.area_provided_cm2 * L * 0.785 else 0
          let steel_esq := if 0 < det_neg_esq.count then det_neg_esq.area_provided_cm2 * (L / 4) * 0.785 else 0
          let steel_dir := if 0 < det_neg_dir.count then det_neg_dir.area_provided_cm2 * (L / 4) * 0.785 else 0
          let steel_st :=
            if det_shear.status = "OK" then
              let len_st := 2 * (((h_test : ℝ) - 4) + (bw - 4)) + 15
              let num_st := L * 100 / det_shear.spacing_cm
              let area_st_unit := 2 * 3.1416 * (det_shear.diameter_mm / 10 / 2) ^ 2
              num_st * len_st / 100 * (area_st_unit * 0.785)
            else 0
          accumulate bw h_test rest
            { steel := acc.steel + steel_pos + steel_esq + steel_dir + steel_st
              conc := acc.conc + bw / 100 * ((h_test : ℝ) / 100) * L
              form := acc.form + (2 * ((h_test : ℝ) / 100) + bw / 100) * L }

/-- After the quantity loop completes, the loop variable `span` still refers
to the last span: `span.design_results.get("As_inf_vao", 0)`. -/
def lastAsPos (spans : List BeamSpan) : ℝ :=
  match spans.getLast? with
  | some sp => sp.design_results.getAsInfVao
  | none => 0

/-- One full trial of `optimize_beam`: clone-and-mutate, solve, ULS design,
SLS check, detailing quantities, and the except-clause / serviceability-failure
sentinel entries with cost `99999`. -/
def runTrial (b : Beam) (bw : ℝ) (h_test : ℕ) : TrialEntry :=
  let tb := trialBeam b h_test
  match MatrixSolver.solve tb with
  | Except.error e => { h := h_test, status := "Erro Calc: " ++ e, cost := 99999 }
  | Except.ok tb1 =>
      let tb3 := ELSCheckerEngine.run_checks 2 (ELUDesignEngine.run_design tb1)
      match accumulate bw h_test tb3.spans { steel := 0, conc := 0, form := 0 } with
      | Except.error e => { h := h_test, status := "Erro Calc: " ++ e, cost := 99999 }
      | Except.ok none => { h := h_test, status := "Falha ELS", cost := 99999 }
      | Except.ok (some tot) =>
          let total_cost := tot.conc * cost_concrete_m3 + tot.steel * cost_steel_kg +
            tot.form * cost_formwork_m2
          { h := h_test, status := "OK", cost := round2 total_cost,
            steel_kg := some (round1 tot.steel), conc_m3 := some (round2 tot.conc),
            as_pos := some (lastAsPos tb3.spans) }

/-- The optimizer's full `results` list, one entry per candidate height. Each
trial is a function of the untouched original beam only (its working state is
an independent deep copy). -/
def trials (b : Beam) : List TrialEntry :=
  test_heights.map fun ht => runTrial b (b.spans.headD default).sec.bw ht

/-- Selection and report assembly of `optimize_beam`: filter the trials with
status "OK", fail with the explicit no-feasible-section dict if none remain,
otherwise pick the minimum-cost valid entry (`min(..., key=cost)`, first on
ties) and look up the entry matching the original height. The recommendation
string's numeric interpolation is elided (its text is irrelevant here). -/
def optimizeReport (original_beam : Beam) : OptResult :=
  let h_orig := (original_beam.spans.headD default).sec.h
  let results := trials original_beam
  let valid_results := results.filter fun r => r.status == "OK"
  match valid_results.argmin TrialEntry.cost with
  | none => OptResult.infeasible "Nenhuma seção viável encontrada."
  | some best =>
      let original_res := results.find? fun r => decide ((r.h : ℝ) = h_orig)
      let recommendation :=
        match original_res with
        | some _ => if (best.h : ℝ) ≠ h_orig then "Alterar h economiza" else "Manter seção atual."
        | none => "Manter seção atual."
      OptResult.report original_res best results recommendation

/-- The method `OptimizerEngine.optimize_beam`, in state-passing form: the
second component is the original beam object as left behind by the call (the
source mutates only the per-trial deep copies, never the original). -/
def optimize_beam (original_beam : Beam) : OptResult × Beam :=
  (optimizeReport original_beam, original_beam)

end OptimizerEngine

/-- Concrete material with fck=30 MPa, Ecs=26000 MPa. -/
def matC30 : Material := { name := "C30", fck := 30, fyk := 500, Ecs := 26000 }

/-- Concrete 20×50 cm rectangular section. -/
def sec2050 : CrossSection := { bw := 20, h := 50 }

/-- A 15 kN/m distributed load over a 6 m span. -/
def load15 : Load :=
  { load_type := LoadType.DISTRIBUTED, value := 15, position_start := 0, position_end := 6 }

/-- The end-to-end scenario beam: one `add_span` of 6 m with both ends pinned,
then the 15 kN/m distributed load appended to the span's load list. -/
def beamC1 : Beam :=
  let b0 := (Beam.mk "V1" [] [] (1, 0)).add_span 6 sec2050 matC30 (0, 0) (1, 0)
    SupportType.PINNED SupportType.PINNED
  { b0 with spans := b0.spans.map fun sp => { sp with loads := [load15] } }

/-- The single span of `beamC1` after the solver has assigned its internal
forces from the computed rotation solution. -/
def spanC1solved : BeamSpan :=
  MatrixSolver.setForces 0 (beamC1.spans.getD 0 default)
    (MatrixSolver.putDisp (MatrixSolver.freeDofs beamC1.nodes)
      (![(-81 / 32500 : ℝ), 81 / 32500] : Fin 2 → ℝ))

/-- A span on which flexural design has never run: its `design_results` dict
is the dataclass default (empty). -/
def spanNoDesign : BeamSpan := { id := 1, length := 5, sec := sec2050, material := matC30 }

/-- A beam holding only `spanNoDesign`. -/
def beamNoDesign : Beam := { id := "B1", spans := [spanNoDesign] }

/-- A beam whose two nodes have no restraint flag set (fully unrestrained). -/
def beamUnrestrained : Beam :=
  { id := "B3"
    spans := [{ id := 1, length := 5, sec := sec2050, material := matC30 }]
    nodes := [{ id := 0, x := 0 }, { id := 1, x := 5 }] }

/-- A span carrying a left support moment of 30 kNm and a negligible right
support moment of 0.05 kNm. -/
def spanMixedMoments : BeamSpan :=
  { id := 1, length := 5, sec := sec2050, material := matC30,
    moment_left := 30, moment_right := 0.05 }

/-- A beam holding only `spanMixedMoments`. -/
def beamMixedMoments : Beam := { id := "B6", spans := [spanMixedMoments] }

/-- A span whose stored design results carry the minimum-reinforcement area
(1.5 cm²) with a zero peak design moment — the state produced by designing an
unloaded span. -/
def spanZeroMoment : BeamSpan :=
  { id := 1, length := 5, sec := sec2050, material := matC30,
    design_results := { flex := some (
      { As_sup_esq := 0, As_sup_dir := 0, As_inf_vao := 1.5, Md_max := 0 } : FlexResults) } }

/-- Two recorded `add_span` calls (second one starting fixed). -/
def argsTwoSpans : List AddSpanArgs :=
  [{ length := 4, sec := sec2050, mat := matC30 },
   { length := 6, sec := sec2050, mat := matC30, start_support := SupportType.FIXED }]

/-- A beam built from a fresh `Beam` by a sequence of `add_span` calls. -/
def builtBeam (bid : String) (ps : List AddSpanArgs) : Beam :=
  ps.foldl applyAddSpan { id := bid }

/-- Structural invariant maintained by `Beam.add_span`: N spans, N+1 nodes
whose ids equal their arena indices, and span number i referencing nodes i
and i+1. -/
def builtInv (b : Beam) : Prop :=
  b.nodes.length = b.spans.length + 1 ∧
  1 ≤ b.spans.length ∧
  (∀ (i : ℕ) (h : i < b.nodes.length), (b.nodes.get ⟨i, h⟩).id = i) ∧
  (∀ (i : ℕ) (h : i < b.spans.length),
    (b.spans.get ⟨i, h⟩).start_node = some i ∧ (b.spans.get ⟨i, h⟩).end_node = some (i + 1))

/-! Theorems: node-arena topology built by `Beam.add_span` (claim C9). -/

theorem setLastFixed_length (l : List Node) : (setLastFixed l).length = l.length := by
  unfold setLastFixed
  cases h : l.getLast? with
  | none => rfl
  | some nd => simp

theorem setLastFixed_eq (l : List Node) (hne : l ≠ []) :
    setLastFixed l = l.set (l.length - 1) { l.getLast hne with ry := true, rz := true } := by
  unfold setLastFixed
  rw [List.getLast?_eq_getLast l hne]

theorem setLastFixed_id (l : List Node) (i : ℕ) (h : i < (setLastFixed l).length)
    (h2 : i < l.length) : ((setLastFixed l).get ⟨i, h⟩).id = (l.get ⟨i, h2⟩).id := by
  have hne : l ≠ [] := by
    intro hl
    subst hl
    simp at h2
  simp only [List.get_eq_getElem]
  simp only [setLastFixed_eq l hne, List.getElem_set]
  by_cases hi : l.length - 1 = i
  · subst hi
    simp [List.getLast_eq_getElem]
  · simp [hi]

theorem addSpanNodes1_nonempty_eq (b : Beam) (sc : ℝ × ℝ) (ss : SupportType)
    (hne : b.nodes ≠ []) :
    addSpanNodes1 b sc ss =
      if ss = SupportType.FIXED then setLastFixed b.nodes else b.nodes := by
  have hie : b.nodes.isEmpty = false := by
    cases hnn : b.nodes with
    | nil => exact absurd hnn hne
    | cons x xs => rfl
  unfold addSpanNodes1
  rw [hie]
  simp

theorem addSpanNodes1_length (b : Beam) (sc : ℝ × ℝ) (ss : SupportType)
    (hne : b.nodes ≠ []) : (addSpanNodes1 b sc ss).length = b.nodes.length := by
  rw [addSpanNodes1_nonempty_eq b sc ss hne]
  by_cases hf : ss = SupportType.FIXED <;> simp [hf, setLastFixed_length]

theorem addSpanNodes1_id (b : Beam) (sc : ℝ × ℝ) (ss : SupportType) (hne : b.nodes ≠ [])
    (hids : ∀ (j : ℕ) (hj : j < b.nodes.length), (b.nodes.get ⟨j, hj⟩).id = j)
    (i : ℕ) (h : i < (addSpanNodes1 b sc ss).length) (h2 : i < b.nodes.length) :
    ((addSpanNodes1 b sc ss).get ⟨i, h⟩).id = i := by
  simp only [List.get_eq_getElem]
  simp only [addSpanNodes1_nonempty_eq b sc ss hne]
  have hid2 : (getElem b.nodes i h2).id = i := by
    have h3 := hids i h2
    simpa [List.get_eq_getElem] using h3
  by_cases hf : ss = SupportType.FIXED
  · simp only [hf, if_pos rfl]
    have h4 : i < (setLastFixed b.nodes).length := by
      rw [setLastFixed_length]
      exact h2
    have h5 := setLastFixed_id b.nodes i h4 h2
    simpa [List.get_eq_getElem, hid2] using h5
  · simp only [if_neg hf]
    exact hid2

theorem addSpanEndNode_id (nodes1 : List Node) (L : ℝ) (dir : ℝ × ℝ) (es : SupportType) :
    (addSpanEndNode nodes1 L dir es).id = nodes1.length := rfl

theorem applyAddSpan_inv (b : Beam) (a : AddSpanArgs) (hb : builtInv b) :
    builtInv (applyAddSpan b a) := by
  obtain ⟨hlen, hpos, hids, hspans⟩ := hb
  have hne : b.nodes ≠ [] := by
    intro h
    rw [h] at hlen
    simp at hlen
  have hn1len : (addSpanNodes1 b a.start_coord a.start_support).length = b.nodes.length :=
    addSpanNodes1_length b _ _ hne
  have hnodes_eq : (applyAddSpan b a).nodes =
      addSpanNodes1 b a.start_coord a.start_support ++
        [addSpanEndNode (addSpanNodes1 b a.start_coord a.start_support) a.length a.direction
          a.end_support] := rfl
  have hspans_eq : (applyAddSpan b a).spans =
      b.spans ++ [({ id := b.spans.length + 1, length := a.length, sec := a.sec,
                     material := a.mat,
                     start_node := some ((addSpanNodes1 b a.start_coord a.start_support).length - 1),
                     end_node := some (addSpanNodes1 b a.start_coord a.start_support).length } : BeamSpan)] := rfl
  refine ⟨?_, ?_, ?_, ?_⟩
  · rw [hnodes_eq, hspans_eq]
    simp [hn1len, hlen]
  · rw [hspans_eq]
    simp
  · intro i h
    have h4 : i < (addSpanNodes1 b a.start_coord a.start_support).length + 1 := by
      have h5 := h
      rw [hnodes_eq] at h5
      simpa [List.length_append] using h5
    simp only [List.get_eq_getElem]
    simp only [hnodes_eq]
    by_cases hi : i < (addSpanNodes1 b a.start_coord a.start_support).length
    · rw [List.getElem_append_left hi]
      have h6 := addSpanNodes1_id b a.start_coord a.start_support hne hids i hi (by omega)
      simpa [List.get_eq_getElem] using h6
    · have hieq : i = (addSpanNodes1 b a.start_coord a.start_support).length := by omega
      rw [List.getElem_concat_length _ _ i hieq]
      rw [addSpanEndNode_id]
      omega
  · intro i h
    have h4 : i < b.spans.length + 1 := by
      have h5 := h
      rw [hspans_eq] at h5
      simpa [List.length_append] using h5
    simp only [List.get_eq_getElem]
    simp only [hspans_eq]
    by_cases hi : i < b.spans.length
    · rw [List.getElem_append_left hi]
      have h5 := hspans i hi
      simpa [List.get_eq_getElem] using h5
    · have hieq : i = b.spans.length := by omega
      rw [List.getElem_concat_length _ _ i hieq]
      refine ⟨?_, ?_⟩
      · show some ((addSpanNodes1 b a.start_coord a.start_support).length - 1) = some i
        congr 1
        omega
      · show some (addSpanNodes1 b a.start_coord a.start_support).length = some (i + 1)
        congr 1
        omega

theorem applyAddSpan_base (bid : String) (a : AddSpanArgs) :
    builtInv (applyAddSpan { id := bid } a) := by
  refine ⟨rfl, le_refl 1, ?_, ?_⟩
  · intro i h
    have h2 : i < 2 := h
    interval_cases i <;> rfl
  · intro i h
    have h2 : i < 1 := h
    interval_cases i
    exact ⟨rfl, rfl⟩

theorem foldl_applyAddSpan_inv (ps : List AddSpanArgs) (b : Beam) (hb : builtInv b) :
    builtInv (ps.foldl applyAddSpan b) := by
  induction ps generalizing b with
  | nil => exact hb
  | cons p rest ih => exact ih _ (applyAddSpan_inv b p hb)

theorem builtBeam_inv (bid : String) (ps : List AddSpanArgs) (hne : ps ≠ []) :
    builtInv (builtBeam bid ps) := by
  cases ps with
  | nil => exact absurd rfl hne
  | cons p rest =>
      exact foldl_applyAddSpan_inv rest _ (applyAddSpan_base bid p)

/-- C9: after any nonempty sequence of `Beam.add_span` calls on a fresh beam,
a beam with N spans has exactly N+1 nodes whose ids are 0..N, every span i
references nodes i and i+1, and for i ≥ 1 span i's start node is the very
arena entry that is span i-1's end node (so one node is shared by both
adjacent spans and a restraint update to it affects both). -/
theorem claim_C9_add_span_topology (bid : String) (ps : List AddSpanArgs) (hne : ps ≠ []) :
    (builtBeam bid ps).nodes.length = (builtBeam bid ps).spans.length + 1 ∧
    (∀ (i : ℕ) (h : i < (builtBeam bid ps).nodes.length),
      ((builtBeam bid ps).nodes.get ⟨i, h⟩).id = i) ∧
    (∀ (i : ℕ) (h : i < (builtBeam bid ps).spans.length),
      ((builtBeam bid ps).spans.get ⟨i, h⟩).start_node = some i ∧
      ((builtBeam bid ps).spans.get ⟨i, h⟩).end_node = some (i + 1)) ∧
    (∀ (i : ℕ) (h : i < (builtBeam bid ps).spans.length) (h1 : 1 ≤ i)
      (h2 : i - 1 < (builtBeam bid ps).spans.length),
      ((builtBeam bid ps).spans.get ⟨i, h⟩).start_node =
        ((builtBeam bid ps).spans.get ⟨i - 1, h2⟩).end_node) := by
  obtain ⟨hlen, hpos, hids, hspans⟩ := builtBeam_inv bid ps hne
  refine ⟨hlen, hids, hspans, ?_⟩
  intro i h h1 h2
  rw [(hspans i h).1, (hspans (i - 1) h2).2]
  congr 1
  omega

/-- Witness for C9 at a concrete two-call sequence. -/
theorem claim_C9_witness :
    (builtBeam "B" argsTwoSpans).nodes.length = (builtBeam "B" argsTwoSpans).spans.length + 1 ∧
    (∀ (i : ℕ) (h : i < (builtBeam "B" argsTwoSpans).nodes.length),
      ((builtBeam "B" argsTwoSpans).nodes.get ⟨i, h⟩).id = i) ∧
    (∀ (i : ℕ) (h : i < (builtBeam "B" argsTwoSpans).spans.length),
      ((builtBeam "B" argsTwoSpans).spans.get ⟨i, h⟩).start_node = some i ∧
      ((builtBeam "B" argsTwoSpans).spans.get ⟨i, h⟩).end_node = some (i + 1)) ∧
    (∀ (i : ℕ) (h : i < (builtBeam "B" argsTwoSpans).spans.length) (h1 : 1 ≤ i)
      (h2 : i - 1 < (builtBeam "B" argsTwoSpans).spans.length),
      ((builtBeam "B" argsTwoSpans).spans.get ⟨i, h⟩).start_node =
        ((builtBeam "B" argsTwoSpans).spans.get ⟨i - 1, h2⟩).end_node) :=
  claim_C9_add_span_topology "B" argsTwoSpans (by simp [argsTwoSpans])

/-! Theorems: singularity of the reduced system for unrestrained beams (claim C3). -/

theorem kPattern_col_sum (L : ℝ) (a : ℕ) :
    MatrixSolver.kPattern L a 0 + MatrixSolver.kPattern L a 2 = 0 := by
  rcases a with _ | _ | _ | _ | n <;> simp [MatrixSolver.kPattern]

theorem freeDofsAux_all_free (l : List Node) (k : ℕ)
    (hfree : ∀ nd ∈ l, nd.ry = false ∧ nd.rz = false) :
    MatrixSolver.freeDofsAux l k = List.range' (2 * k) (2 * l.length) 1 := by
  induction l generalizing k with
  | nil => rfl
  | cons nd rest ih =>
      obtain ⟨h1, h2⟩ := hfree nd (List.mem_cons_self _ _)
      have hrest : ∀ x ∈ rest, x.ry = false ∧ x.rz = false := fun x hx =>
        hfree x (List.mem_cons_of_mem _ hx)
      show (if nd.ry then [] else [2 * k]) ++ (if nd.rz then [] else [2 * k + 1]) ++
        MatrixSolver.freeDofsAux rest (k + 1) = _
      rw [h1, h2, ih (k + 1) hrest]
      have h3 : 2 * (nd :: rest).length = 2 * rest.length + 1 + 1 := by
        simp [List.length_cons]
        ring
      rw [h3, List.range'_succ, List.range'_succ]
      have h4 : 2 * (k + 1) = 2 * k + 1 + 1 := by ring
      rw [h4]
      simp

theorem freeDofs_all_free (nodes : List Node)
    (hfree : ∀ nd ∈ nodes, nd.ry = false ∧ nd.rz = false) :
    MatrixSolver.freeDofs nodes = List.range' 0 (2 * nodes.length) 1 := by
  have h := freeDofsAux_all_free nodes 0 hfree
  simpa [MatrixSolver.freeDofs] using h

theorem contrib_row_sum (p : ℕ) (sp : BeamSpan) (gi N : ℕ) (hp : 2 * p + 4 ≤ 2 * N) :
    ∑ j ∈ Finset.range (2 * N),
      MatrixSolver.contrib p sp gi j * (if j % 2 = 0 then (1 : ℝ) else 0) = 0 := by
  have hsub : Finset.Ico (2 * p) (2 * p + 4) ⊆ Finset.range (2 * N) := by
    intro x hx
    rw [Finset.mem_Ico] at hx
    rw [Finset.mem_range]
    omega
  rw [← Finset.sum_subset hsub (by
    intro x _ hnx
    rw [Finset.mem_Ico] at hnx
    have hc : MatrixSolver.contrib p sp gi x = 0 := by
      unfold MatrixSolver.contrib
      rw [if_neg]
      intro hcc
      exact hnx ⟨hcc.2.2.1, hcc.2.2.2⟩
    rw [hc, zero_mul])]
  rw [Finset.sum_Ico_eq_sum_range]
  have h4 : 2 * p + 4 - 2 * p = 4 := by omega
  rw [h4]
  rw [Finset.sum_range_succ, Finset.sum_range_succ, Finset.sum_range_succ,
    Finset.sum_range_succ, Finset.sum_range_zero]
  have e0 : (2 * p + 0) % 2 = 0 := by omega
  have e1 : (2 * p + 1) % 2 = 1 := by omega
  have e2 : (2 * p + 2) % 2 = 0 := by omega
  have e3 : (2 * p + 3) % 2 = 1 := by omega
  rw [if_pos e0, if_pos e2, if_neg (by omega : ¬ (2 * p + 1) % 2 = 0),
    if_neg (by omega : ¬ (2 * p + 3) % 2 = 0)]
  rw [mul_one, mul_one, mul_zero, mul_zero, add_zero, zero_add, add_zero]
  unfold MatrixSolver.contrib
  by_cases hgi : 2 * p ≤ gi ∧ gi < 2 * p + 4
  · rw [if_pos ⟨hgi.1, hgi.2, by omega, by omega⟩, if_pos ⟨hgi.1, hgi.2, by omega, by omega⟩]
    have g0 : 2 * p + 0 - 2 * p = 0 := by omega
    have g2 : 2 * p + 2 - 2 * p = 2 := by omega
    rw [g0, g2]
    unfold MatrixSolver.kLocal
    rw [← mul_add, kPattern_col_sum, mul_zero]
  · rw [if_neg (by intro hcc; exact hgi ⟨hcc.1, hcc.2.1⟩),
      if_neg (by intro hcc; exact hgi ⟨hcc.1, hcc.2.1⟩)]
    rw [add_zero]

theorem K_global_row_sum (spans : List BeamSpan) (N gi : ℕ) (hsp : spans.length + 1 ≤ N) :
    ∑ j ∈ Finset.range (2 * N),
      MatrixSolver.K_global spans gi j * (if j % 2 = 0 then (1 : ℝ) else 0) = 0 := by
  unfold MatrixSolver.K_global
  have hswap : ∀ j ∈ Finset.range (2 * N),
      (∑ p ∈ Finset.range spans.length, MatrixSolver.contrib p (spans.getD p default) gi j) *
        (if j % 2 = 0 then (1 : ℝ) else 0) =
      ∑ p ∈ Finset.range spans.length,
        MatrixSolver.contrib p (spans.getD p default) gi j * (if j % 2 = 0 then (1 : ℝ) else 0) :=
    fun j _ => Finset.sum_mul _ _ _
  rw [Finset.sum_congr rfl hswap, Finset.sum_comm]
  apply Finset.sum_eq_zero
  intro p hp
  rw [Finset.mem_range] at hp
  exact contrib_row_sum p _ gi N (by omega)

theorem K_reduced_det_zero (b : Beam) (hs : 1 ≤ b.spans.length)
    (hn : b.nodes.length = b.spans.length + 1)
    (hfree : ∀ nd ∈ b.nodes, nd.ry = false ∧ nd.rz = false) :
    (MatrixSolver.K_reduced b).det = 0 := by
  have hfd : MatrixSolver.freeDofs b.nodes = List.range' 0 (2 * b.nodes.length) 1 :=
    freeDofs_all_free b.nodes hfree
  have hlen : (MatrixSolver.freeDofs b.nodes).length = 2 * b.nodes.length := by
    rw [hfd, List.length_range']
  have hget : ∀ (k : Fin (MatrixSolver.freeDofs b.nodes).length),
      (MatrixSolver.freeDofs b.nodes).get k = (k : ℕ) := by
    intro k
    rw [List.get_eq_getElem]
    simp only [hfd]
    simp [List.getElem_range']
  rw [← Matrix.exists_mulVec_eq_zero_iff]
  refine ⟨fun k =>
    if ((MatrixSolver.freeDofs b.nodes).get k) % 2 = 0 then (1 : ℝ) else 0, ?_, ?_⟩
  · have hpos : 0 < (MatrixSolver.freeDofs b.nodes).length := by omega
    intro heq
    have h0 := congrFun heq ⟨0, hpos⟩
    rw [hget ⟨0, hpos⟩] at h0
    simp at h0
  · funext i
    show (∑ k, MatrixSolver.K_reduced b i k *
      (if ((MatrixSolver.freeDofs b.nodes).get k) % 2 = 0 then (1 : ℝ) else 0)) = 0
    have hterm : ∀ k, MatrixSolver.K_reduced b i k *
        (if ((MatrixSolver.freeDofs b.nodes).get k) % 2 = 0 then (1 : ℝ) else 0) =
        MatrixSolver.K_global b.spans ((MatrixSolver.freeDofs b.nodes).get i) (k : ℕ) *
          (if (k : ℕ) % 2 = 0 then (1 : ℝ) else 0) := by
      intro k
      rw [show MatrixSolver.K_reduced b i k =
        MatrixSolver.K_global b.spans ((MatrixSolver.freeDofs b.nodes).get i)
          ((MatrixSolver.freeDofs b.nodes).get k) from rfl]
      rw [hget k]
    rw [Finset.sum_congr rfl fun k _ => hterm k]
    rw [Fin.sum_univ_eq_sum_range
      (fun j => MatrixSolver.K_global b.spans ((MatrixSolver.freeDofs b.nodes).get i) j *
        (if j % 2 = 0 then (1 : ℝ) else 0))]
    rw [hlen]
    exact K_global_row_sum b.spans b.nodes.length _ (by omega)

/-- C3: whenever the reduced free-DOF stiffness matrix of a (nonempty) beam is
singular, `MatrixSolver.solve` returns the propagated "Matriz Singular" error
(so no internal forces are assigned); and for every well-formed beam in which
no node has any restraint flag set, that reduced matrix is indeed singular. -/
theorem claim_C3_singular_structure :
    (∀ b : Beam, b.nodes ≠ [] → b.spans ≠ [] → (MatrixSolver.K_reduced b).det = 0 →
      MatrixSolver.solve b = Except.error MatrixSolver.singularMsg) ∧
    (∀ b : Beam, 1 ≤ b.spans.length → b.nodes.length = b.spans.length + 1 →
      (∀ nd ∈ b.nodes, nd.ry = false ∧ nd.rz = false) →
      (MatrixSolver.K_reduced b).det = 0) := by
  constructor
  · intro b hn hs hdet
    have hn2 : b.nodes.isEmpty = false := by
      cases hnn : b.nodes with
      | nil => exact absurd hnn hn
      | cons x xs => rfl
    have hs2 : b.spans.isEmpty = false := by
      cases hss : b.spans with
      | nil => exact absurd hss hs
      | cons x xs => rfl
    unfold MatrixSolver.solve
    rw [hn2, hs2]
    simp only [Bool.false_eq_true, if_false]
    unfold MatrixSolver.solve_system
    rw [if_pos hdet]
  · exact fun b hs hn hfree => K_reduced_det_zero b hs hn hfree

/-- Witness for C3: the concrete fully-unrestrained single-span beam makes the
solver fail with the singular-structure error. -/
theorem claim_C3_witness :
    MatrixSolver.solve beamUnrestrained = Except.error MatrixSolver.singularMsg :=
  claim_C3_singular_structure.1 beamUnrestrained (by simp [beamUnrestrained])
    (by simp [beamUnrestrained])
    (claim_C3_singular_structure.2 beamUnrestrained (by simp [beamUnrestrained])
      (by simp [beamUnrestrained])
      (by
        intro nd hnd
        fin_cases hnd <;> exact ⟨rfl, rfl⟩))

/-! Theorems: minimum-reinforcement floor (claim C6). -/

/-- C6: after `run_design`, every span's stored flexural areas satisfy the
minimum-reinforcement floor `0.0015·b·h`: the midspan area is always floored,
and each support area is floored exactly when its design moment magnitude
exceeds the 0.1 threshold; below the threshold the support is exempt (stored
as 0). -/
theorem claim_C6_minimum_reinforcement (b : Beam) (sp2 : BeamSpan)
    (hmem : sp2 ∈ (ELUDesignEngine.run_design b).spans) :
    ∃ fr : FlexResults, sp2.design_results.flex = some fr ∧
      0.0015 * sp2.sec.bw * sp2.sec.h ≤ fr.As_inf_vao ∧
      (0.1 < |sp2.moment_left| * ELUDesignEngine.gamma_f →
        0.0015 * sp2.sec.bw * sp2.sec.h ≤ fr.As_sup_esq) ∧
      (¬ 0.1 < |sp2.moment_left| * ELUDesignEngine.gamma_f → fr.As_sup_esq = 0) ∧
      (0.1 < |sp2.moment_right| * ELUDesignEngine.gamma_f →
        0.0015 * sp2.sec.bw * sp2.sec.h ≤ fr.As_sup_dir) ∧
      (¬ 0.1 < |sp2.moment_right| * ELUDesignEngine.gamma_f → fr.As_sup_dir = 0) := by
  unfold ELUDesignEngine.run_design at hmem
  simp only [List.mem_map] at hmem
  obtain ⟨sp, _hsp, rfl⟩ := hmem
  refine ⟨_, rfl, ?_, ?_, ?_, ?_, ?_⟩
  · exact le_max_right _ _
  · intro h
    show 0.0015 * sp.sec.bw * sp.sec.h ≤
      if 0.1 < |sp.moment_left| * ELUDesignEngine.gamma_f then
        max (ELUDesignEngine.calc_reinforcement_area (|sp.moment_left| * ELUDesignEngine.gamma_f)
          sp.sec.bw (sp.sec.h - 4) sp.material.get_fcd
          (sp.material.fyk / ELUDesignEngine.gamma_s / 10)) (0.0015 * sp.sec.bw * sp.sec.h)
      else 0
    have h2 : 0.1 < |sp.moment_left| * ELUDesignEngine.gamma_f := h
    rw [if_pos h2]
    exact le_max_right _ _
  · intro h
    show (if 0.1 < |sp.moment_left| * ELUDesignEngine.gamma_f then
        max (ELUDesignEngine.calc_reinforcement_area (|sp.moment_left| * ELUDesignEngine.gamma_f)
          sp.sec.bw (sp.sec.h - 4) sp.material.get_fcd
          (sp.material.fyk / ELUDesignEngine.gamma_s / 10)) (0.0015 * sp.sec.bw * sp.sec.h)
      else 0) = 0
    have h2 : ¬ 0.1 < |sp.moment_left| * ELUDesignEngine.gamma_f := h
    rw [if_neg h2]
  · intro h
    show 0.0015 * sp.sec.bw * sp.sec.h ≤
      if 0.1 < |sp.moment_right| * ELUDesignEngine.gamma_f then
        max (ELUDesignEngine.calc_reinforcement_area (|sp.moment_right| * ELUDesignEngine.gamma_f)
          sp.sec.bw (sp.sec.h - 4) sp.material.get_fcd
          (sp.material.fyk / ELUDesignEngine.gamma_s / 10)) (0.0015 * sp.sec.bw * sp.sec.h)
      else 0
    have h2 : 0.1 < |sp.moment_right| * ELUDesignEngine.gamma_f := h
    rw [if_pos h2]
    exact le_max_right _ _
  · intro h
    show (if 0.1 < |sp.moment_right| * ELUDesignEngine.gamma_f then
        max (ELUDesignEngine.calc_reinforcement_area (|sp.moment_right| * ELUDesignEngine.gamma_f)
          sp.sec.bw (sp.sec.h - 4) sp.material.get_fcd
          (sp.material.fyk / ELUDesignEngine.gamma_s / 10)) (0.0015 * sp.sec.bw * sp.sec.h)
      else 0) = 0
    have h2 : ¬ 0.1 < |sp.moment_right| * ELUDesignEngine.gamma_f := h
    rw [if_neg h2]

/-- Witness for C6 on the concrete one-span beam with a 30 kNm left moment
and a negligible (0.05 kNm) right moment. -/
theorem claim_C6_witness :
    ∃ fr : FlexResults,
      (ELUDesignEngine.design_shear (ELUDesignEngine.design_flexure
        spanMixedMoments)).design_results.flex = some fr ∧
      0.0015 * 20 * 50 ≤ fr.As_inf_vao ∧ 0.0015 * 20 * 50 ≤ fr.As_sup_esq ∧
      fr.As_sup_dir = 0 := by
  obtain ⟨fr, h1, h2, h3, _h4, _h5, h6⟩ :=
    claim_C6_minimum_reinforcement beamMixedMoments
      (ELUDesignEngine.design_shear (ELUDesignEngine.design_flexure spanMixedMoments))
      (by simp [beamMixedMoments, ELUDesignEngine.run_design])
  refine ⟨fr, h1, ?_, ?_, ?_⟩
  · simpa [spanMixedMoments, sec2050] using h2
  · apply h3
    show (0.1 : ℝ) < |spanMixedMoments.moment_left| * ELUDesignEngine.gamma_f
    rw [show spanMixedMoments.moment_left = (30 : ℝ) from rfl]
    rw [ELUDesignEngine.gamma_f]
    rw [abs_of_pos (by norm_num : (0 : ℝ) < 30)]
    norm_num
  · apply h6
    show ¬ (0.1 : ℝ) < |spanMixedMoments.moment_right| * ELUDesignEngine.gamma_f
    rw [show spanMixedMoments.moment_right = (0.05 : ℝ) from rfl]
    rw [ELUDesignEngine.gamma_f]
    rw [abs_of_pos (by norm_num : (0 : ℝ) < 0.05)]
    norm_num

/-! Theorems: monotonicity of the flexural reinforcement formula (claim C7). -/

theorem sqrt_factor_le (kmd : ℝ) (hk0 : 0 ≤ kmd) :
    Real.sqrt (0.68 ^ 2 - 4 * 0.272 * kmd) ≤ 0.68 := by
  rw [Real.sqrt_le_left (by norm_num : (0 : ℝ) ≤ 0.68)]
  nlinarith

theorem calc_area_pos_branch (Md b d fcd fyd : ℝ) (hb : 0 < b) (hd : 0 < d) (hfcd : 0 < fcd)
    (hMd : 0.01 < Md) (hk : Md * 100 / (b * d ^ 2 * fcd) ≤ 0.251) :
    ELUDesignEngine.calc_reinforcement_area Md b d fcd fyd =
      Md * 100 / (d * (1 - 0.4 * ((0.68 - Real.sqrt (0.68 ^ 2 -
        4 * 0.272 * (Md * 100 / (b * d ^ 2 * fcd)))) / (2 * 0.272))) * fyd) := by
  have hD : 0 < b * d ^ 2 * fcd := by positivity
  have hkpos : 0 < Md * 100 / (b * d ^ 2 * fcd) := by positivity
  have hcond : ¬ 1 - 4 * 0.272 * (Md * 100 / (b * d ^ 2 * fcd)) / 0.68 ^ 2 < 0 := by
    rw [not_lt]
    have hx : 1 - 4 * 0.272 * (Md * 100 / (b * d ^ 2 * fcd)) / 0.68 ^ 2 =
        1 - (40 / 17) * (Md * 100 / (b * d ^ 2 * fcd)) := by ring
    rw [hx]
    linarith
  unfold ELUDesignEngine.calc_reinforcement_area
  rw [if_neg (not_le.mpr hMd), if_neg (not_lt.mpr hk), if_neg hcond]

theorem zlever_bounds (kmd d : ℝ) (hd : 0 < d) (hk0 : 0 ≤ kmd) :
    d / 2 ≤ d * (1 - 0.4 * ((0.68 - Real.sqrt (0.68 ^ 2 - 4 * 0.272 * kmd)) / (2 * 0.272))) ∧
    d * (1 - 0.4 * ((0.68 - Real.sqrt (0.68 ^ 2 - 4 * 0.272 * kmd)) / (2 * 0.272))) ≤ d := by
  have hs0 : 0 ≤ Real.sqrt (0.68 ^ 2 - 4 * 0.272 * kmd) := Real.sqrt_nonneg _
  have hs1 : Real.sqrt (0.68 ^ 2 - 4 * 0.272 * kmd) ≤ 0.68 := sqrt_factor_le kmd hk0
  have hx : d * (1 - 0.4 * ((0.68 - Real.sqrt (0.68 ^ 2 - 4 * 0.272 * kmd)) / (2 * 0.272))) =
      d / 2 + (25 / 34) * (d * Real.sqrt (0.68 ^ 2 - 4 * 0.272 * kmd)) := by ring
  rw [hx]
  constructor
  · nlinarith [mul_nonneg hd.le hs0]
  · nlinarith [mul_le_mul_of_nonneg_left hs1 hd.le]

/-- C7: for fixed width, effective depth and design strengths (all positive),
and design moments Md1 ≤ Md2 whose dimensionless parameters kmd are both below
the 0.251 ductility limit, `_calc_reinforcement_area` is monotone: the area
required for Md2 is not smaller than the area required for Md1. -/
theorem claim_C7_flexure_monotonic (b d fcd fyd Md1 Md2 : ℝ)
    (hb : 0 < b) (hd : 0 < d) (hfcd : 0 < fcd) (hfyd : 0 < fyd) (h12 : Md1 ≤ Md2)
    (hk1 : Md1 * 100 / (b * d ^ 2 * fcd) ≤ 0.251)
    (hk2 : Md2 * 100 / (b * d ^ 2 * fcd) ≤ 0.251) :
    ELUDesignEngine.calc_reinforcement_area Md1 b d fcd fyd ≤
      ELUDesignEngine.calc_reinforcement_area Md2 b d fcd fyd := by
  have hD : 0 < b * d ^ 2 * fcd := by positivity
  by_cases h1 : Md1 ≤ 0.01
  · rw [show ELUDesignEngine.calc_reinforcement_area Md1 b d fcd fyd = 0 from by
      unfold ELUDesignEngine.calc_reinforcement_area; rw [if_pos h1]]
    by_cases h2 : Md2 ≤ 0.01
    · rw [show ELUDesignEngine.calc_reinforcement_area Md2 b d fcd fyd = 0 from by
        unfold ELUDesignEngine.calc_reinforcement_area; rw [if_pos h2]]
    · push_neg at h2
      rw [calc_area_pos_branch Md2 b d fcd fyd hb hd hfcd h2 hk2]
      have hz := zlever_bounds (Md2 * 100 / (b * d ^ 2 * fcd)) d hd (by positivity)
      have hz2pos : 0 < d * (1 - 0.4 * ((0.68 - Real.sqrt (0.68 ^ 2 -
          4 * 0.272 * (Md2 * 100 / (b * d ^ 2 * fcd)))) / (2 * 0.272))) :=
        lt_of_lt_of_le (half_pos hd) hz.1
      have hnum : (0 : ℝ) ≤ Md2 * 100 := by linarith
      exact div_nonneg hnum (mul_nonneg hz2pos.le hfyd.le)
  · push_neg at h1
    have h2 : (0.01 : ℝ) < Md2 := lt_of_lt_of_le h1 h12
    rw [calc_area_pos_branch Md1 b d fcd fyd hb hd hfcd h1 hk1,
      calc_area_pos_branch Md2 b d fcd fyd hb hd hfcd h2 hk2]
    have hkle : Md1 * 100 / (b * d ^ 2 * fcd) ≤ Md2 * 100 / (b * d ^ 2 * fcd) := by
      apply (div_le_div_iff_of_pos_right hD).mpr
      linarith
    have hsle : Real.sqrt (0.68 ^ 2 - 4 * 0.272 * (Md2 * 100 / (b * d ^ 2 * fcd))) ≤
        Real.sqrt (0.68 ^ 2 - 4 * 0.272 * (Md1 * 100 / (b * d ^ 2 * fcd))) := by
      apply Real.sqrt_le_sqrt
      nlinarith
    have hz1 := zlever_bounds (Md1 * 100 / (b * d ^ 2 * fcd)) d hd (by positivity)
    have hz2 := zlever_bounds (Md2 * 100 / (b * d ^ 2 * fcd)) d hd (by positivity)
    have hz2pos : 0 < d * (1 - 0.4 * ((0.68 - Real.sqrt (0.68 ^ 2 -
        4 * 0.272 * (Md2 * 100 / (b * d ^ 2 * fcd)))) / (2 * 0.272))) :=
      lt_of_lt_of_le (half_pos hd) hz2.1
    have hzz : d * (1 - 0.4 * ((0.68 - Real.sqrt (0.68 ^ 2 -
        4 * 0.272 * (Md2 * 100 / (b * d ^ 2 * fcd)))) / (2 * 0.272))) ≤
        d * (1 - 0.4 * ((0.68 - Real.sqrt (0.68 ^ 2 -
        4 * 0.272 * (Md1 * 100 / (b * d ^ 2 * fcd)))) / (2 * 0.272))) := by
      have e1 : d * (1 - 0.4 * ((0.68 - Real.sqrt (0.68 ^ 2 -
          4 * 0.272 * (Md1 * 100 / (b * d ^ 2 * fcd)))) / (2 * 0.272))) =
          d / 2 + (25 / 34) * (d * Real.sqrt (0.68 ^ 2 -
            4 * 0.272 * (Md1 * 100 / (b * d ^ 2 * fcd)))) := by ring
      have e2 : d * (1 - 0.4 * ((0.68 - Real.sqrt (0.68 ^ 2 -
          4 * 0.272 * (Md2 * 100 / (b * d ^ 2 * fcd)))) / (2 * 0.272))) =
          d / 2 + (25 / 34) * (d * Real.sqrt (0.68 ^ 2 -
            4 * 0.272 * (Md2 * 100 / (b * d ^ 2 * fcd)))) := by ring
      rw [e1, e2]
      nlinarith [mul_le_mul_of_nonneg_left hsle hd.le]
    exact div_le_div₀ (by linarith) (by linarith) (mul_pos hz2pos hfyd)
      (mul_le_mul_of_nonneg_right hzz hfyd.le)

/-- Witness for C7 at concrete inputs (b=20, d=46, fcd=15/7, fyd=1000/23,
Md1=10, Md2=20). -/
theorem claim_C7_witness :
    ELUDesignEngine.calc_reinforcement_area 10 20 46 (15 / 7) (1000 / 23) ≤
      ELUDesignEngine.calc_reinforcement_area 20 20 46 (15 / 7) (1000 / 23) :=
  claim_C7_flexure_monotonic 20 46 (15 / 7) (1000 / 23) 10 20
    (by norm_num) (by norm_num) (by norm_num) (by norm_num) (by norm_num)
    (by norm_num) (by norm_num)

/-! Theorems: serviceability checker runs even without design results (claim C2). -/

/-- C2: a span whose `design_results` dict is empty (flexural design never
ran) is NOT skipped by `run_checks` — the `hasattr` guard is identically true
for the dataclass — and a `ServiceabilityResult` (zero crack width, zero
deflection, both "OK") is attached to it. -/
theorem claim_C2_els_not_skipped :
    spanNoDesign.design_results.flex = none ∧
    spanNoDesign.design_results.shear = none ∧
    (∀ sp : BeamSpan, ELSCheckerEngine.has_design_results_attr sp = true) ∧
    ∃ r : ServiceabilityResult,
      ((ELSCheckerEngine.run_checks 2 beamNoDesign).spans.headD default).els_results = some r ∧
      r.status_crack = "OK" ∧ r.status_deflection = "OK" := by
  refine ⟨rfl, rfl, fun _ => rfl, ?_⟩
  refine ⟨_, rfl, ?_, ?_⟩
  · show (ELSCheckerEngine.check_cracking 2 spanNoDesign).status = "OK"
    unfold ELSCheckerEngine.check_cracking
    rw [if_pos (by
      rw [show spanNoDesign.design_results.getAsInfVao = 0 from rfl]
      norm_num)]
  · show (ELSCheckerEngine.check_deflection spanNoDesign).status = "OK"
    dsimp only [ELSCheckerEngine.check_deflection]
    rw [if_pos ?cond]
    case cond =>
      rw [show ((spanNoDesign.loads.filter fun l =>
        l.load_type == LoadType.DISTRIBUTED).map Load.value).sum = (0 : ℝ) from rfl]
      rw [show spanNoDesign.length = (5 : ℝ) from rfl]
      norm_num

/-! Theorems: well-definedness of the crack computation (claim C10). -/

theorem crack_phi_pos (As : ℝ) : 0 < ELSCheckerEngine.crack_phi As := by
  unfold ELSCheckerEngine.crack_phi
  split_ifs <;> norm_num

/-- C10 counterexample: the concrete span with positive width (20 cm),
positive effective depth (46 cm) and midspan steel area 1.5 > 0.001 — but a
zero stored peak design moment — yields steel stress 0 and crack width 0, so
the stress and crack width are not strictly positive as claimed. -/
theorem claim_C10_counterexample :
    (0 : ℝ) < 20 ∧ (0 : ℝ) < 46 ∧ (0.001 : ℝ) < 1.5 ∧
    ELSCheckerEngine.crack_sigma 20 1.5 46 (0 / 1.4 * 100) = 0 ∧
    (ELSCheckerEngine.check_cracking 2 spanZeroMoment).wk = 0 := by
  refine ⟨by norm_num, by norm_num, by norm_num, ?_, ?_⟩
  · unfold ELSCheckerEngine.crack_sigma
    norm_num
  · unfold ELSCheckerEngine.check_cracking
    rw [if_neg (by
      rw [show spanZeroMoment.design_results.getAsInfVao = 1.5 from rfl]
      norm_num)]
    show round3 (ELSCheckerEngine.crack_wk_mm spanZeroMoment.sec.bw
      spanZeroMoment.design_results.getAsInfVao (spanZeroMoment.sec.h - 4)
      (spanZeroMoment.design_results.getMdMax / 1.4 * 100) spanZeroMoment.material.fck) = 0
    rw [show spanZeroMoment.design_results.getMdMax = (0 : ℝ) from rfl]
    unfold ELSCheckerEngine.crack_wk_mm ELSCheckerEngine.crack_sigma
    norm_num [round3]

/-- C10 (amended): for web width b > 0, effective depth d > 0 and steel area
As > 0.001, the Stage II discriminant is strictly positive, the chosen root
satisfies 0 < x_II < d, and the cracked inertia is strictly positive, so no
division by zero or square root of a negative can occur; the steel stress and
crack width are nonnegative whenever the service moment is nonnegative, and
strictly positive whenever it is strictly positive (they vanish at a zero
service moment, which the original claim overlooked). -/
theorem claim_C10_crack_welldefined (b As d M fck : ℝ)
    (hb : 0 < b) (hd : 0 < d) (hAs : 0.001 < As) (hfck : 0 < fck) :
    0 < ELSCheckerEngine.crack_delta b As d ∧
    0 < ELSCheckerEngine.crack_xII b As d ∧
    ELSCheckerEngine.crack_xII b As d < d ∧
    0 < ELSCheckerEngine.crack_III b As d ∧
    (0 ≤ M → 0 ≤ ELSCheckerEngine.crack_sigma b As d M ∧
      0 ≤ ELSCheckerEngine.crack_wk_mm b As d M fck) ∧
    (0 < M → 0 < ELSCheckerEngine.crack_sigma b As d M ∧
      0 < ELSCheckerEngine.crack_wk_mm b As d M fck) := by
  have hAs0 : 0 < As := lt_trans (by norm_num) hAs
  have hdelta : ELSCheckerEngine.crack_delta b As d =
      (10 * As) ^ 2 + 2 * (b * (10 * As * d)) := by
    unfold ELSCheckerEngine.crack_delta
    ring
  have hbAd : 0 < b * (10 * As * d) := by positivity
  have hdel : 0 < ELSCheckerEngine.crack_delta b As d := by
    rw [hdelta]
    positivity
  have hsq : 10 * As < Real.sqrt (ELSCheckerEngine.crack_delta b As d) := by
    rw [Real.lt_sqrt (by positivity)]
    rw [hdelta]
    nlinarith
  have hsq2 : Real.sqrt (ELSCheckerEngine.crack_delta b As d) < 10 * As + b * d := by
    rw [Real.sqrt_lt' (by positivity)]
    rw [hdelta]
    nlinarith [sq_nonneg (b * d), mul_pos hb hd]
  have hxpos : 0 < ELSCheckerEngine.crack_xII b As d := by
    unfold ELSCheckerEngine.crack_xII
    apply div_pos (by linarith) (by linarith)
  have hxlt : ELSCheckerEngine.crack_xII b As d < d := by
    unfold ELSCheckerEngine.crack_xII
    rw [div_lt_iff₀ (by linarith)]
    nlinarith
  have hIII : 0 < ELSCheckerEngine.crack_III b As d := by
    unfold ELSCheckerEngine.crack_III
    have h1 : 0 < b * ELSCheckerEngine.crack_xII b As d ^ 3 / 3 := by positivity
    have h2 : 0 ≤ 10 * As * (d - ELSCheckerEngine.crack_xII b As d) ^ 2 := by positivity
    linarith
  have hfctm : 0 < ELSCheckerEngine.fctm_of fck := by
    unfold ELSCheckerEngine.fctm_of
    have := Real.rpow_pos_of_pos hfck ((2 : ℝ) / 3)
    positivity
  have hphi := crack_phi_pos As
  have hdx : 0 < d - ELSCheckerEngine.crack_xII b As d := by linarith
  refine ⟨hdel, hxpos, hxlt, hIII, ?_, ?_⟩
  · intro hM
    have hsig : 0 ≤ ELSCheckerEngine.crack_sigma b As d M := by
      unfold ELSCheckerEngine.crack_sigma
      positivity
    refine ⟨hsig, ?_⟩
    unfold ELSCheckerEngine.crack_wk_mm
    have ht3 : 0 ≤ max (0.6 * ELSCheckerEngine.crack_sigma b As d M /
        ELSCheckerEngine.fctm_of fck) (3 * ELSCheckerEngine.crack_sigma b As d M /
        ELSCheckerEngine.fctm_of fck) := by
      apply le_max_of_le_right
      positivity
    positivity
  · intro hM
    have hsig : 0 < ELSCheckerEngine.crack_sigma b As d M := by
      unfold ELSCheckerEngine.crack_sigma
      have : 0 < M * (d - ELSCheckerEngine.crack_xII b As d) / ELSCheckerEngine.crack_III b As d :=
        div_pos (mul_pos hM hdx) hIII
      linarith
    refine ⟨hsig, ?_⟩
    unfold ELSCheckerEngine.crack_wk_mm
    have ht3 : 0 < max (0.6 * ELSCheckerEngine.crack_sigma b As d M /
        ELSCheckerEngine.fctm_of fck) (3 * ELSCheckerEngine.crack_sigma b As d M /
        ELSCheckerEngine.fctm_of fck) := by
      apply lt_max_of_lt_right
      positivity
    positivity

/-- Witness for the amended C10 at b=20, As=1.5, d=46, M=10, fck=25. -/
theorem claim_C10_witness :
    0 < ELSCheckerEngine.crack_delta 20 1.5 46 ∧
    0 < ELSCheckerEngine.crack_xII 20 1.5 46 ∧
    ELSCheckerEngine.crack_xII 20 1.5 46 < 46 ∧
    0 < ELSCheckerEngine.crack_III 20 1.5 46 ∧
    0 < ELSCheckerEngine.crack_sigma 20 1.5 46 10 ∧
    0 < ELSCheckerEngine.crack_wk_mm 20 1.5 46 10 25 := by
  obtain ⟨h1, h2, h3, h4, _h5, h6⟩ :=
    claim_C10_crack_welldefined 20 1.5 46 10 25 (by norm_num) (by norm_num)
      (by norm_num) (by norm_num)
  obtain ⟨h7, h8⟩ := h6 (by norm_num)
  exact ⟨h1, h2, h3, h4, h7, h8⟩

/-! Theorems: longitudinal bar selection (claim C8). -/

theorem stepAcc_eq_none_iff (as w fck : ℝ) (bond : String) (phi : ℝ)
    (acc : Option (BarSelectorEngine.BarOption × ℝ)) :
    BarSelectorEngine.stepAcc as w fck bond phi acc = none ↔
      acc = none ∧ ¬ BarSelectorEngine.fits as w phi := by
  cases acc with
  | none =>
      by_cases hf : BarSelectorEngine.fits as w phi <;>
        simp [BarSelectorEngine.stepAcc, hf]
  | some pr =>
      by_cases hf : BarSelectorEngine.fits as w phi
      · by_cases hlt : BarSelectorEngine.excess as phi < pr.2 <;>
          simp [BarSelectorEngine.stepAcc, hf, hlt]
      · simp [BarSelectorEngine.stepAcc, hf]

theorem stepAcc_some_cases (as w fck : ℝ) (bond : String) (phi : ℝ)
    (acc : Option (BarSelectorEngine.BarOption × ℝ)) (o : BarSelectorEngine.BarOption) (ov : ℝ)
    (h : BarSelectorEngine.stepAcc as w fck bond phi acc = some (o, ov)) :
    acc = some (o, ov) ∨ (BarSelectorEngine.fits as w phi ∧
      o = BarSelectorEngine.mkOpt as phi fck bond ∧ ov = BarSelectorEngine.excess as phi) := by
  cases acc with
  | none =>
      simp only [BarSelectorEngine.stepAcc] at h
      by_cases hf : BarSelectorEngine.fits as w phi
      · rw [if_pos hf] at h
        simp only [Option.some.injEq, Prod.mk.injEq] at h
        exact Or.inr ⟨hf, h.1.symm, h.2.symm⟩
      · rw [if_neg hf] at h
        exact absurd h (by simp)
  | some pr =>
      simp only [BarSelectorEngine.stepAcc] at h
      by_cases hf : BarSelectorEngine.fits as w phi
      · rw [if_pos hf] at h
        by_cases hlt : BarSelectorEngine.excess as phi < pr.2
        · rw [if_pos hlt] at h
          simp only [Option.some.injEq, Prod.mk.injEq] at h
          exact Or.inr ⟨hf, h.1.symm, h.2.symm⟩
        · rw [if_neg hlt] at h
          exact Or.inl h
      · rw [if_neg hf] at h
        exact Or.inl h

theorem stepAcc_le_acc (as w fck : ℝ) (bond : String) (phi : ℝ)
    (oa o : BarSelectorEngine.BarOption) (ova ov : ℝ)
    (hs : BarSelectorEngine.stepAcc as w fck bond phi (some (oa, ova)) = some (o, ov)) :
    ov ≤ ova := by
  simp only [BarSelectorEngine.stepAcc] at hs
  by_cases hf : BarSelectorEngine.fits as w phi
  · rw [if_pos hf] at hs
    by_cases hlt : BarSelectorEngine.excess as phi < (oa, ova).2
    · rw [if_pos hlt] at hs
      simp only [Option.some.injEq, Prod.mk.injEq] at hs
      rw [← hs.2]
      exact le_of_lt hlt
    · rw [if_neg hlt] at hs
      simp only [Option.some.injEq, Prod.mk.injEq] at hs
      rw [← hs.2]
  · rw [if_neg hf] at hs
    simp only [Option.some.injEq, Prod.mk.injEq] at hs
    rw [← hs.2]

theorem stepAcc_le_excess (as w fck : ℝ) (bond : String) (phi : ℝ)
    (acc : Option (BarSelectorEngine.BarOption × ℝ)) (o : BarSelectorEngine.BarOption) (ov : ℝ)
    (hf : BarSelectorEngine.fits as w phi)
    (hs : BarSelectorEngine.stepAcc as w fck bond phi acc = some (o, ov)) :
    ov ≤ BarSelectorEngine.excess as phi := by
  cases acc with
  | none =>
      simp only [BarSelectorEngine.stepAcc] at hs
      rw [if_pos hf] at hs
      simp only [Option.some.injEq, Prod.mk.injEq] at hs
      rw [← hs.2]
  | some pr =>
      simp only [BarSelectorEngine.stepAcc] at hs
      rw [if_pos hf] at hs
      by_cases hlt : BarSelectorEngine.excess as phi < pr.2
      · rw [if_pos hlt] at hs
        simp only [Option.some.injEq, Prod.mk.injEq] at hs
        rw [← hs.2]
      · rw [if_neg hlt] at hs
        simp only [Option.some.injEq] at hs
        rw [hs] at hlt
        exact not_lt.mp hlt

theorem selectBest_none_iff (as w fck : ℝ) (bond : String) (l : List ℝ) :
    ∀ (acc : Option (BarSelectorEngine.BarOption × ℝ)),
    (BarSelectorEngine.selectBest as w fck bond l acc = none ↔
      acc = none ∧ ∀ phi ∈ l, ¬ BarSelectorEngine.fits as w phi) := by
  induction l with
  | nil => intro acc; simp [BarSelectorEngine.selectBest]
  | cons phi rest ih =>
      intro acc
      show BarSelectorEngine.selectBest as w fck bond rest
        (BarSelectorEngine.stepAcc as w fck bond phi acc) = none ↔ _
      rw [ih, stepAcc_eq_none_iff, List.forall_mem_cons]
      tauto

theorem selectBest_some_spec (as w fck : ℝ) (bond : String) (l : List ℝ) :
    ∀ (acc : Option (BarSelectorEngine.BarOption × ℝ)) (o : BarSelectorEngine.BarOption) (ov : ℝ),
      BarSelectorEngine.selectBest as w fck bond l acc = some (o, ov) →
      (acc = some (o, ov) ∨ ∃ phi ∈ l, BarSelectorEngine.fits as w phi ∧
        o = BarSelectorEngine.mkOpt as phi fck bond ∧ ov = BarSelectorEngine.excess as phi) := by
  induction l with
  | nil =>
      intro acc o ov h
      exact Or.inl h
  | cons phi rest ih =>
      intro acc o ov h
      replace h : BarSelectorEngine.selectBest as w fck bond rest
        (BarSelectorEngine.stepAcc as w fck bond phi acc) = some (o, ov) := h
      rcases ih _ o ov h with hacc | ⟨psi, hmem, hrest⟩
      · rcases stepAcc_some_cases as w fck bond phi acc o ov hacc with h1 | ⟨hf, h2, h3⟩
        · exact Or.inl h1
        · exact Or.inr ⟨phi, List.mem_cons_self _ _, hf, h2, h3⟩
      · exact Or.inr ⟨psi, List.mem_cons_of_mem _ hmem, hrest⟩

theorem selectBest_min_spec (as w fck : ℝ) (bond : String) (l : List ℝ) :
    ∀ (acc : Option (BarSelectorEngine.BarOption × ℝ)) (o : BarSelectorEngine.BarOption) (ov : ℝ),
      BarSelectorEngine.selectBest as w fck bond l acc = some (o, ov) →
      (∀ oa ova, acc = some (oa, ova) → ov ≤ ova) ∧
      (∀ psi ∈ l, BarSelectorEngine.fits as w psi → ov ≤ BarSelectorEngine.excess as psi) := by
  induction l with
  | nil =>
      intro acc o ov h
      refine ⟨?_, fun psi hpsi _ => absurd hpsi (List.not_mem_nil psi)⟩
      intro oa ova hacc
      rw [hacc] at h
      simp only [BarSelectorEngine.selectBest, Option.some.injEq, Prod.mk.injEq] at h
      rw [← h.2]
  | cons phi rest ih =>
      intro acc o ov h
      replace h : BarSelectorEngine.selectBest as w fck bond rest
        (BarSelectorEngine.stepAcc as w fck bond phi acc) = some (o, ov) := h
      obtain ⟨ih1, ih2⟩ := ih _ o ov h
      constructor
      · intro oa ova hacc
        subst hacc
        rcases hs : BarSelectorEngine.stepAcc as w fck bond phi (some (oa, ova)) with _ | pr2
        · rw [stepAcc_eq_none_iff] at hs
          exact absurd hs.1 (by simp)
        · obtain ⟨oa2, ova2⟩ := pr2
          have h4 := ih1 oa2 ova2 hs
          have h5 := stepAcc_le_acc as w fck bond phi oa oa2 ova ova2 hs
          linarith
      · intro psi hpsi hfit
        rcases List.mem_cons.mp hpsi with heq | hmem
        · subst heq
          rcases hs : BarSelectorEngine.stepAcc as w fck bond psi acc with _ | pr2
          · rw [stepAcc_eq_none_iff] at hs
            exact absurd hfit hs.2
          · obtain ⟨oa2, ova2⟩ := pr2
            have h4 := ih1 oa2 ova2 hs
            have h5 := stepAcc_le_excess as w fck bond psi acc oa2 ova2 hfit hs
            linarith
        · exact ih2 psi hmem hfit

theorem longitudinal_bars_pos :
    ∀ phi ∈ BarSelectorEngine.longitudinal_bars, (0 : ℝ) < phi := by
  intro phi h
  fin_cases h <;> norm_num

theorem areaBar_pos (phi : ℝ) (h : 0 < phi) : 0 < BarSelectorEngine.areaBar phi := by
  unfold BarSelectorEngine.areaBar
  have := Real.pi_pos
  positivity

theorem mkOpt_area_ge (as phi fck : ℝ) (bond : String) (hphi : 0 < phi) (has : 0 < as) :
    as ≤ (BarSelectorEngine.mkOpt as phi fck bond).area_provided_cm2 := by
  show as ≤ (BarSelectorEngine.nBars as phi : ℝ) * BarSelectorEngine.areaBar phi
  have harea := areaBar_pos phi hphi
  have h1 : as / BarSelectorEngine.areaBar phi ≤ (BarSelectorEngine.nBars as phi : ℝ) := by
    unfold BarSelectorEngine.nBars
    calc as / BarSelectorEngine.areaBar phi
        ≤ (⌈as / BarSelectorEngine.areaBar phi⌉₊ : ℝ) := Nat.le_ceil _
      _ ≤ ((max 2 ⌈as / BarSelectorEngine.areaBar phi⌉₊ : ℕ) : ℝ) := by
          exact_mod_cast le_max_right _ _
  rw [div_le_iff₀ harea] at h1
  exact h1

/-- C8: for a required area above the negligibility cutoff, if some catalogue
diameter fits the available width at its minimal admissible bar count (≥2 and
enough area), `select_longitudinal` returns an OK option whose provided area
covers the requirement and whose excess area is minimal among all fitting
catalogue diameters; if no diameter fits, the explicit does-not-fit failure
option is returned. -/
theorem claim_C8_bar_selection (as_req bw_cm : ℝ) (h : 0.01 < as_req) :
    ((∃ phi ∈ BarSelectorEngine.longitudinal_bars,
        BarSelectorEngine.fits as_req (BarSelectorEngine.widthAvailable bw_cm 25) phi) →
      (BarSelectorEngine.select_longitudinal as_req bw_cm).status = "OK" ∧
      as_req ≤ (BarSelectorEngine.select_longitudinal as_req bw_cm).area_provided_cm2 ∧
      (∀ psi ∈ BarSelectorEngine.longitudinal_bars,
        BarSelectorEngine.fits as_req (BarSelectorEngine.widthAvailable bw_cm 25) psi →
        (BarSelectorEngine.select_longitudinal as_req bw_cm).area_provided_cm2 - as_req ≤
          BarSelectorEngine.excess as_req psi)) ∧
    ((∀ phi ∈ BarSelectorEngine.longitudinal_bars,
        ¬ BarSelectorEngine.fits as_req (BarSelectorEngine.widthAvailable bw_cm 25) phi) →
      (BarSelectorEngine.select_longitudinal as_req bw_cm).status =
        "Erro: Não cabe (Camada Dupla nec.)") := by
  constructor
  · rintro ⟨phi, hmem, hfit⟩
    rcases hsel : BarSelectorEngine.selectBest as_req
        (BarSelectorEngine.widthAvailable bw_cm 25) 25 "good"
        BarSelectorEngine.longitudinal_bars none with _ | pr
    · rw [selectBest_none_iff] at hsel
      exact absurd hfit (hsel.2 phi hmem)
    · obtain ⟨o, ov⟩ := pr
      have hout : BarSelectorEngine.select_longitudinal as_req bw_cm = o := by
        unfold BarSelectorEngine.select_longitudinal
        rw [if_neg (not_le.mpr h)]
        simp only [Bool.false_eq_true, if_false]
        rw [hsel]
      rcases selectBest_some_spec as_req _ 25 "good" _ none o ov hsel with hbad | hgood
      · exact absurd hbad (by simp)
      · obtain ⟨psi, hpsimem, hpsifit, ho, hov⟩ := hgood
        obtain ⟨hmin1, hmin2⟩ := selectBest_min_spec as_req _ 25 "good" _ none o ov hsel
        refine ⟨?_, ?_, ?_⟩
        · rw [hout, ho]
          rfl
        · rw [hout, ho]
          exact mkOpt_area_ge as_req psi 25 "good" (longitudinal_bars_pos psi hpsimem)
            (lt_trans (by norm_num) h)
        · intro chi hchimem hchifit
          rw [hout]
          have harea : o.area_provided_cm2 - as_req = ov := by
            rw [ho, hov]
            show (BarSelectorEngine.nBars as_req psi : ℝ) * BarSelectorEngine.areaBar psi -
              as_req = BarSelectorEngine.excess as_req psi
            rfl
          rw [harea]
          exact hmin2 chi hchimem hchifit
  · intro hall
    have hsel : BarSelectorEngine.selectBest as_req
        (BarSelectorEngine.widthAvailable bw_cm 25) 25 "good"
        BarSelectorEngine.longitudinal_bars none = none := by
      rw [selectBest_none_iff]
      exact ⟨rfl, hall⟩
    unfold BarSelectorEngine.select_longitudinal
    rw [if_neg (not_le.mpr h)]
    simp only [Bool.false_eq_true, if_false]
    rw [hsel]

/-- Witness for C8 at as_req = 2 cm², bw = 20 cm (the 20 mm diameter fits). -/
theorem claim_C8_witness :
    (BarSelectorEngine.select_longitudinal 2 20).status = "OK" ∧
    (2 : ℝ) ≤ (BarSelectorEngine.select_longitudinal 2 20).area_provided_cm2 ∧
    (∀ psi ∈ BarSelectorEngine.longitudinal_bars,
      BarSelectorEngine.fits 2 (BarSelectorEngine.widthAvailable 20 25) psi →
      (BarSelectorEngine.select_longitudinal 2 20).area_provided_cm2 - 2 ≤
        BarSelectorEngine.excess 2 psi) := by
  have hpi := Real.pi_pos
  have ha20 : BarSelectorEngine.areaBar 20 = Real.pi := by
    unfold BarSelectorEngine.areaBar
    norm_num
  have hceil : ⌈(2 : ℝ) / BarSelectorEngine.areaBar 20⌉₊ = 1 := by
    rw [ha20, Nat.ceil_eq_iff one_ne_zero]
    constructor
    · simpa using div_pos (by norm_num : (0 : ℝ) < 2) hpi
    · rw [Nat.cast_one, div_le_one hpi]
      exact Real.two_le_pi
  have hn : BarSelectorEngine.nBars 2 20 = 2 := by
    unfold BarSelectorEngine.nBars
    rw [hceil]
    decide
  have hfit : BarSelectorEngine.fits 2 (BarSelectorEngine.widthAvailable 20 25) 20 := by
    unfold BarSelectorEngine.fits
    rw [hn]
    unfold BarSelectorEngine.spaceRequired BarSelectorEngine.widthAvailable
    norm_num
  exact (claim_C8_bar_selection 2 20 (by norm_num)).1
    ⟨20, by norm_num [BarSelectorEngine.longitudinal_bars], hfit⟩

/-! Theorems: optimizer selection and frame conditions (claims C4 and C5). -/

theorem runTrial_status_or_sentinel (b : Beam) (bw : ℝ) (ht : ℕ) :
    (OptimizerEngine.runTrial b bw ht).status = "OK" ∨
    (OptimizerEngine.runTrial b bw ht).cost = 99999 := by
  unfold OptimizerEngine.runTrial
  cases hsv : MatrixSolver.solve (OptimizerEngine.trialBeam b ht) with
  | error e =>
      simp only [hsv]
      exact Or.inr trivial
  | ok tb1 =>
      simp only [hsv]
      cases hacc : OptimizerEngine.accumulate bw ht
          (ELSCheckerEngine.run_checks 2 (ELUDesignEngine.run_design tb1)).spans
          { steel := 0, conc := 0, form := 0 } with
      | error e2 =>
          simp only [hacc]
          exact Or.inr trivial
      | ok x =>
          cases x with
          | none =>
              simp only [hacc]
              exact Or.inr trivial
          | some tot =>
              simp only [hacc]
              exact Or.inl trivial

/-- C4: the optimizer records every failed trial (pipeline exception or
serviceability failure) with the sentinel cost 99999 and a non-"OK" status,
keeps searching over all 11 candidate heights, and selects its best candidate
only among trials with status "OK", with minimal cost among those; the
explicit no-feasible-section result is returned exactly when no trial has
status "OK". -/
theorem claim_C4_optimizer_selection (b : Beam) (hb : b.spans ≠ []) :
    (∀ t ∈ OptimizerEngine.trials b, t.status ≠ "OK" → t.cost = 99999) ∧
    (OptimizerEngine.trials b).length = 11 ∧
    (∀ orig best ts rec, OptimizerEngine.optimizeReport b =
        OptimizerEngine.OptResult.report orig best ts rec →
      ts = OptimizerEngine.trials b ∧ best.status = "OK" ∧
      best ∈ OptimizerEngine.trials b ∧
      ∀ t ∈ OptimizerEngine.trials b, t.status = "OK" → best.cost ≤ t.cost) ∧
    (OptimizerEngine.optimizeReport b =
        OptimizerEngine.OptResult.infeasible "Nenhuma seção viável encontrada." ↔
      ∀ t ∈ OptimizerEngine.trials b, t.status ≠ "OK") := by
  refine ⟨?_, ?_, ?_, ?_⟩
  · intro t ht hne
    unfold OptimizerEngine.trials at ht
    rcases List.mem_map.mp ht with ⟨h0, _hmem, rfl⟩
    rcases runTrial_status_or_sentinel b (b.spans.headD default).sec.bw h0 with hok | hc
    · exact absurd hok hne
    · exact hc
  · unfold OptimizerEngine.trials OptimizerEngine.test_heights
    rw [List.length_map, List.length_range']
  · intro orig best ts rec heq
    simp only [OptimizerEngine.optimizeReport] at heq
    cases hm : ((OptimizerEngine.trials b).filter fun r =>
        r.status == "OK").argmin OptimizerEngine.TrialEntry.cost with
    | none =>
        rw [hm] at heq
        exact absurd heq (by simp)
    | some bm =>
        rw [hm] at heq
        have hinj := OptimizerEngine.OptResult.report.injEq .. ▸ heq
        simp only [OptimizerEngine.OptResult.report.injEq] at heq
        obtain ⟨_horig, hbest, hts, _hrec⟩ := heq
        have hbm : bm ∈ ((OptimizerEngine.trials b).filter fun r =>
            r.status == "OK").argmin OptimizerEngine.TrialEntry.cost := by
          rw [hm]
          rfl
        have hmemf : bm ∈ (OptimizerEngine.trials b).filter fun r => r.status == "OK" :=
          List.argmin_mem hbm
        have hmem2 := List.mem_filter.mp hmemf
        refine ⟨hts.symm, ?_, ?_, ?_⟩
        · rw [← hbest]
          simpa using hmem2.2
        · rw [← hbest]
          exact hmem2.1
        · intro t ht hok
          have htf : t ∈ (OptimizerEngine.trials b).filter fun r => r.status == "OK" :=
            List.mem_filter.mpr ⟨ht, by simp [hok]⟩
          rw [← hbest]
          exact List.le_of_mem_argmin htf hbm
  · constructor
    · intro heq
      simp only [OptimizerEngine.optimizeReport] at heq
      cases hm : ((OptimizerEngine.trials b).filter fun r =>
          r.status == "OK").argmin OptimizerEngine.TrialEntry.cost with
      | some bm =>
          rw [hm] at heq
          exact absurd heq (by simp)
      | none =>
          have hnil := List.argmin_eq_none.mp hm
          have hall := List.filter_eq_nil_iff.mp hnil
          intro t ht hok
          exact hall t ht (by simp [hok])
    · intro hall
      have hnil : (OptimizerEngine.trials b).filter (fun r => r.status == "OK") = [] :=
        List.filter_eq_nil_iff.mpr fun t ht => by simpa using hall t ht
      have hm : ((OptimizerEngine.trials b).filter fun r =>
          r.status == "OK").argmin OptimizerEngine.TrialEntry.cost = none := by
        rw [hnil]
        rfl
      simp only [OptimizerEngine.optimizeReport]
      rw [hm]

/-- Witness for C4 at the concrete end-to-end beam. -/
theorem claim_C4_witness :
    (∀ t ∈ OptimizerEngine.trials beamC1, t.status ≠ "OK" → t.cost = 99999) ∧
    (OptimizerEngine.trials beamC1).length = 11 ∧
    (∀ orig best ts rec, OptimizerEngine.optimizeReport beamC1 =
        OptimizerEngine.OptResult.report orig best ts rec →
      ts = OptimizerEngine.trials beamC1 ∧ best.status = "OK" ∧
      best ∈ OptimizerEngine.trials beamC1 ∧
      ∀ t ∈ OptimizerEngine.trials beamC1, t.status = "OK" → best.cost ≤ t.cost) ∧
    (OptimizerEngine.optimizeReport beamC1 =
        OptimizerEngine.OptResult.infeasible "Nenhuma seção viável encontrada." ↔
      ∀ t ∈ OptimizerEngine.trials beamC1, t.status ≠ "OK") :=
  claim_C4_optimizer_selection beamC1 (by
    intro hnil
    have hlen := congrArg List.length hnil
    rw [show beamC1.spans.length = 1 from rfl, List.length_nil] at hlen
    exact one_ne_zero hlen)

/-- C5: `optimize_beam` never mutates the original beam: in the state-passing
model of the optimizer (the `copy.deepcopy` working copies have value
semantics, so every per-trial mutation acts on the copy), the beam object
handed back after the call is exactly the input beam — same spans (geometry,
sections, loads, forces, result maps) and same nodes — and every trial's
entry is a function of the untouched original beam alone, so no trial shares
mutable state with the original or with other trials. -/
theorem claim_C5_optimizer_frame (b : Beam) :
    (OptimizerEngine.optimize_beam b).2 = b ∧
    (OptimizerEngine.optimize_beam b).2.spans = b.spans ∧
    (OptimizerEngine.optimize_beam b).2.nodes = b.nodes ∧
    OptimizerEngine.trials b =
      OptimizerEngine.test_heights.map
        (fun ht => OptimizerEngine.runTrial b (b.spans.headD default).sec.bw ht) :=
  ⟨rfl, rfl, rfl, rfl⟩

/-! Theorems: end-to-end single-span scenario (claim C1). -/

theorem inv_mulVec_of_mulVec_eq {n : ℕ} (A : Matrix (Fin n) (Fin n) ℝ) (F u : Fin n → ℝ)
    (hdet : A.det ≠ 0) (h : A.mulVec u = F) : A⁻¹.mulVec F = u := by
  rw [← h, Matrix.mulVec_mulVec, Matrix.nonsing_inv_mul A (isUnit_iff_ne_zero.mpr hdet),
    Matrix.one_mulVec]

theorem beamC1_freeDofs : MatrixSolver.freeDofs beamC1.nodes = [1, 3] := rfl

theorem beamC1_EIL3 :
    MatrixSolver.spanEIL3 (beamC1.spans.getD 0 default) = 40625 / 162 := by
  unfold MatrixSolver.spanEIL3 MatrixSolver.spanE MatrixSolver.spanI
  rw [show (beamC1.spans.getD 0 default).material.Ecs = (26000 : ℝ) from rfl]
  rw [show (beamC1.spans.getD 0 default).sec.inertia = (20 : ℝ) * 50 ^ 3 / 12 from rfl]
  rw [show (beamC1.spans.getD 0 default).length = (6 : ℝ) from rfl]
  norm_num

theorem beamC1_K_entry (i j : Fin 2) :
    MatrixSolver.K_reduced beamC1 i j =
      40625 / 162 * MatrixSolver.kPattern 6 (([1, 3] : List ℕ).get i) (([1, 3] : List ℕ).get j) := by
  show MatrixSolver.K_global beamC1.spans (([1, 3] : List ℕ).get i) (([1, 3] : List ℕ).get j) = _
  unfold MatrixSolver.K_global
  rw [show beamC1.spans.length = 1 from rfl, Finset.sum_range_one]
  unfold MatrixSolver.contrib
  rw [if_pos ⟨Nat.zero_le _, by fin_cases i <;> (fin_cases j <;> norm_num),
    Nat.zero_le _, by fin_cases i <;> (fin_cases j <;> norm_num)⟩]
  unfold MatrixSolver.kLocal
  rw [beamC1_EIL3]
  rw [show (beamC1.spans.getD 0 default).length = (6 : ℝ) from rfl]
  congr 1

theorem beamC1_F_entry (i : Fin 2) :
    MatrixSolver.F_reduced beamC1 i = ![( -45 : ℝ), 45] i := by
  show MatrixSolver.F_global beamC1.spans (([1, 3] : List ℕ).get i) = _
  unfold MatrixSolver.F_global
  rw [show beamC1.spans.length = 1 from rfl, Finset.sum_range_one]
  unfold MatrixSolver.fContrib
  rw [if_pos ⟨Nat.zero_le _, by fin_cases i <;> norm_num⟩]
  have hfl : ∀ a : ℕ, MatrixSolver.f_local (beamC1.spans.getD 0 default) a =
      MatrixSolver.repLoad 6 15 a := by
    intro a
    show ([MatrixSolver.repLoad (beamC1.spans.getD 0 default).length load15.value a]).sum = _
    rw [show (beamC1.spans.getD 0 default).length = (6 : ℝ) from rfl,
      show load15.value = (15 : ℝ) from rfl]
    simp
  fin_cases i
  · rw [hfl _]
    show -(15 * 6 ^ 2 / 12 : ℝ) = -45
    norm_num
  · rw [hfl _]
    show -(-(15 * 6 ^ 2) / 12 : ℝ) = 45
    norm_num

theorem beamC1_det_ne_zero : (MatrixSolver.K_reduced beamC1).det ≠ 0 := by
  have hdet2 : (MatrixSolver.K_reduced beamC1).det =
      MatrixSolver.K_reduced beamC1 (0 : Fin 2) (0 : Fin 2) *
          MatrixSolver.K_reduced beamC1 (1 : Fin 2) (1 : Fin 2) -
        MatrixSolver.K_reduced beamC1 (0 : Fin 2) (1 : Fin 2) *
          MatrixSolver.K_reduced beamC1 (1 : Fin 2) (0 : Fin 2) :=
    Matrix.det_fin_two (MatrixSolver.K_reduced beamC1)
  rw [hdet2, beamC1_K_entry 0 0, beamC1_K_entry 0 1, beamC1_K_entry 1 0, beamC1_K_entry 1 1]
  unfold MatrixSolver.kPattern
  norm_num

theorem beamC1_mulVec :
    (MatrixSolver.K_reduced beamC1).mulVec (![(-81 / 32500 : ℝ), 81 / 32500] : Fin 2 → ℝ) =
      MatrixSolver.F_reduced beamC1 := by
  funext i
  rw [show (MatrixSolver.K_reduced beamC1).mulVec
      (![(-81 / 32500 : ℝ), 81 / 32500] : Fin 2 → ℝ) i =
    ∑ x : Fin 2, MatrixSolver.K_reduced beamC1 i x *
      (![(-81 / 32500 : ℝ), 81 / 32500] : Fin 2 → ℝ) x from rfl]
  rw [Fin.sum_univ_two]
  rw [beamC1_K_entry i 0, beamC1_K_entry i 1, beamC1_F_entry i]
  fin_cases i <;>
    · unfold MatrixSolver.kPattern
      norm_num [Matrix.cons_val_zero, Matrix.cons_val_one, Matrix.head_cons]

theorem beamC1_solve_system :
    MatrixSolver.solve_system beamC1 =
      Except.ok (MatrixSolver.putDisp (MatrixSolver.freeDofs beamC1.nodes)
        (![(-81 / 32500 : ℝ), 81 / 32500] : Fin 2 → ℝ)) := by
  unfold MatrixSolver.solve_system
  rw [if_neg beamC1_det_ne_zero]
  rw [inv_mulVec_of_mulVec_eq (MatrixSolver.K_reduced beamC1) (MatrixSolver.F_reduced beamC1)
    (![(-81 / 32500 : ℝ), 81 / 32500] : Fin 2 → ℝ) beamC1_det_ne_zero beamC1_mulVec]

theorem beamC1_disp_vals :
    MatrixSolver.putDisp (MatrixSolver.freeDofs beamC1.nodes)
        (![(-81 / 32500 : ℝ), 81 / 32500] : Fin 2 → ℝ) 0 = 0 ∧
    MatrixSolver.putDisp (MatrixSolver.freeDofs beamC1.nodes)
        (![(-81 / 32500 : ℝ), 81 / 32500] : Fin 2 → ℝ) 1 = -81 / 32500 ∧
    MatrixSolver.putDisp (MatrixSolver.freeDofs beamC1.nodes)
        (![(-81 / 32500 : ℝ), 81 / 32500] : Fin 2 → ℝ) 2 = 0 ∧
    MatrixSolver.putDisp (MatrixSolver.freeDofs beamC1.nodes)
        (![(-81 / 32500 : ℝ), 81 / 32500] : Fin 2 → ℝ) 3 = 81 / 32500 :=
  ⟨rfl, rfl, rfl, rfl⟩

theorem beamC1_f_local (a : ℕ) :
    MatrixSolver.f_local (beamC1.spans.getD 0 default) a = MatrixSolver.repLoad 6 15 a := by
  show ([MatrixSolver.repLoad (beamC1.spans.getD 0 default).length load15.value a]).sum = _
  rw [show (beamC1.spans.getD 0 default).length = (6 : ℝ) from rfl,
    show load15.value = (15 : ℝ) from rfl]
  simp

theorem beamC1_kLocal (a bb : ℕ) :
    MatrixSolver.kLocal (beamC1.spans.getD 0 default) a bb =
      40625 / 162 * MatrixSolver.kPattern 6 a bb := by
  unfold MatrixSolver.kLocal
  rw [beamC1_EIL3, show (beamC1.spans.getD 0 default).length = (6 : ℝ) from rfl]

theorem beamC1_f_final_vals :
    MatrixSolver.f_final (beamC1.spans.getD 0 default) 0
        (MatrixSolver.putDisp (MatrixSolver.freeDofs beamC1.nodes)
          (![(-81 / 32500 : ℝ), 81 / 32500] : Fin 2 → ℝ)) 0 = 45 ∧
    MatrixSolver.f_final (beamC1.spans.getD 0 default) 0
        (MatrixSolver.putDisp (MatrixSolver.freeDofs beamC1.nodes)
          (![(-81 / 32500 : ℝ), 81 / 32500] : Fin 2 → ℝ)) 1 = 0 ∧
    MatrixSolver.f_final (beamC1.spans.getD 0 default) 0
        (MatrixSolver.putDisp (MatrixSolver.freeDofs beamC1.nodes)
          (![(-81 / 32500 : ℝ), 81 / 32500] : Fin 2 → ℝ)) 2 = 45 ∧
    MatrixSolver.f_final (beamC1.spans.getD 0 default) 0
        (MatrixSolver.putDisp (MatrixSolver.freeDofs beamC1.nodes)
          (![(-81 / 32500 : ℝ), 81 / 32500] : Fin 2 → ℝ)) 3 = 0 := by
  have hd := beamC1_disp_vals
  refine ⟨?_, ?_, ?_, ?_⟩ <;>
  · unfold MatrixSolver.f_final MatrixSolver.f_disp
    rw [Finset.sum_range_succ, Finset.sum_range_succ, Finset.sum_range_succ,
      Finset.sum_range_one, beamC1_f_local]
    simp only [beamC1_kLocal, Nat.mul_zero, Nat.zero_add]
    rw [hd.1, hd.2.1, hd.2.2.1, hd.2.2.2]
    norm_num [MatrixSolver.kPattern, MatrixSolver.repLoad]

theorem beamC1_forces :
    spanC1solved.shear_left = 45 ∧ spanC1solved.moment_left = 0 ∧
      spanC1solved.shear_right = -45 ∧ spanC1solved.moment_right = 0 := by
  have hf := beamC1_f_final_vals
  refine ⟨hf.1, hf.2.1, ?_, ?_⟩
  · show -MatrixSolver.f_final (beamC1.spans.getD 0 default) 0
      (MatrixSolver.putDisp (MatrixSolver.freeDofs beamC1.nodes)
        (![(-81 / 32500 : ℝ), 81 / 32500] : Fin 2 → ℝ)) 2 = -45
    rw [hf.2.2.1]
  · show -MatrixSolver.f_final (beamC1.spans.getD 0 default) 0
      (MatrixSolver.putDisp (MatrixSolver.freeDofs beamC1.nodes)
        (![(-81 / 32500 : ℝ), 81 / 32500] : Fin 2 → ℝ)) 3 = 0
    rw [hf.2.2.2]
    norm_num

theorem beamC1_solve :
    MatrixSolver.solve beamC1 = Except.ok { beamC1 with spans := [spanC1solved] } := by
  unfold MatrixSolver.solve
  rw [if_neg (by decide : ¬ beamC1.nodes.isEmpty = true),
    if_neg (by decide : ¬ beamC1.spans.isEmpty = true), beamC1_solve_system]
  rfl

theorem beamC1_estimate : ELUDesignEngine.pos_moment_estimate spanC1solved = 67.5 := by
  have hf := beamC1_f_final_vals
  unfold ELUDesignEngine.pos_moment_estimate
  rw [show ELUDesignEngine.q_dist_total spanC1solved = (15 : ℝ) + 0 from rfl]
  rw [show spanC1solved.length = (6 : ℝ) from rfl]
  rw [show spanC1solved.moment_left = MatrixSolver.f_final (beamC1.spans.getD 0 default) 0
      (MatrixSolver.putDisp (MatrixSolver.freeDofs beamC1.nodes)
        (![(-81 / 32500 : ℝ), 81 / 32500] : Fin 2 → ℝ)) 1 from rfl, hf.2.1]
  rw [show spanC1solved.moment_right = -MatrixSolver.f_final (beamC1.spans.getD 0 default) 0
      (MatrixSolver.putDisp (MatrixSolver.freeDofs beamC1.nodes)
        (![(-81 / 32500 : ℝ), 81 / 32500] : Fin 2 → ℝ)) 3 from rfl, hf.2.2.2]
  norm_num [max_eq_right]

theorem beamC1_As :
    ∃ fr : FlexResults,
      (ELUDesignEngine.design_flexure spanC1solved).design_results.flex = some fr ∧
      1.5 < fr.As_inf_vao := by
  refine ⟨_, rfl, ?_⟩
  show (1.5 : ℝ) < max (ELUDesignEngine.calc_reinforcement_area
      (ELUDesignEngine.pos_moment_estimate spanC1solved * ELUDesignEngine.gamma_f)
      spanC1solved.sec.bw (spanC1solved.sec.h - 4) spanC1solved.material.get_fcd
      (spanC1solved.material.fyk / ELUDesignEngine.gamma_s / 10))
    (0.0015 * spanC1solved.sec.bw * spanC1solved.sec.h)
  rw [beamC1_estimate, show spanC1solved.sec.bw = (20 : ℝ) from rfl,
    show spanC1solved.sec.h = (50 : ℝ) from rfl,
    show spanC1solved.material.get_fcd = (30 : ℝ) / 1.4 / 10 from rfl,
    show spanC1solved.material.fyk = (500 : ℝ) from rfl,
    show ELUDesignEngine.gamma_f = (1.4 : ℝ) from rfl,
    show ELUDesignEngine.gamma_s = (1.15 : ℝ) from rfl]
  refine lt_of_lt_of_le ?_ (le_max_left _ _)
  rw [calc_area_pos_branch (67.5 * 1.4) 20 (50 - 4) (30 / 1.4 / 10) (500 / 1.15 / 10)
    (by norm_num) (by norm_num) (by norm_num) (by norm_num) (by norm_num)]
  have hz := zlever_bounds (67.5 * 1.4 * 100 / (20 * ((50 : ℝ) - 4) ^ 2 * (30 / 1.4 / 10)))
    ((50 : ℝ) - 4) (by norm_num) (by norm_num)
  have hzpos : (0 : ℝ) < ((50 : ℝ) - 4) * (1 - 0.4 * ((0.68 - Real.sqrt (0.68 ^ 2 -
      4 * 0.272 * (67.5 * 1.4 * 100 / (20 * ((50 : ℝ) - 4) ^ 2 * (30 / 1.4 / 10))))) /
      (2 * 0.272))) :=
    lt_of_lt_of_le (by norm_num) hz.1
  rw [show (500 : ℝ) / 1.15 / 10 = 1000 / 23 from by norm_num]
  rw [lt_div_iff₀ (mul_pos hzpos (by norm_num : (0 : ℝ) < 1000 / 23))]
  have hz2 := hz.2
  nlinarith [hz2]

/-- C1: on the beam built by one `add_span` of 6 m (20×50 cm section, fck 30,
Ecs 26000, both ends pinned) carrying a 15 kN/m distributed load, the solver
succeeds and the span gets shear_left = 45 kN and shear_right = −45 kN; the
midspan positive-moment estimate before amplification is 67.5 kNm; and after
`run_design` (load factor 1.4) the stored midspan steel area `As_inf_vao`
strictly exceeds the minimum-reinforcement floor 0.0015·b·h = 1.5 cm². -/
theorem claim_C1_end_to_end :
    ∃ bs : Beam, MatrixSolver.solve beamC1 = Except.ok bs ∧
      ∃ sp : BeamSpan, bs.spans = [sp] ∧
        sp.shear_left = 45 ∧ sp.shear_right = -45 ∧
        ELUDesignEngine.pos_moment_estimate sp = 67.5 ∧
        0.0015 * sp.sec.bw * sp.sec.h = 1.5 ∧
        ∃ fr : FlexResults,
          ((ELUDesignEngine.run_design bs).spans.getD 0 default).design_results.flex =
            some fr ∧
          1.5 < fr.As_inf_vao := by
  obtain ⟨fr, hfr, hAs⟩ := beamC1_As
  have hfc := beamC1_forces
  refine ⟨{ beamC1 with spans := [spanC1solved] }, beamC1_solve, spanC1solved, rfl,
    hfc.1, hfc.2.2.1, beamC1_estimate, ?_, fr, ?_, hAs⟩
  · rw [show spanC1solved.sec.bw = (20 : ℝ) from rfl,
      show spanC1solved.sec.h = (50 : ℝ) from rfl]
    norm_num
  · show (ELUDesignEngine.design_shear
      (ELUDesignEngine.design_flexure spanC1solved)).design_results.flex = some fr
    exact hfr

end
